import Mathlib

/-!
# Restore orchestration of `internal/databases/mongo/binary/restore.go`

A shallow embedding of `RestoreService.DoRestore`, `downloadFromTarArchives`,
`fixSystemData` and `recoverFromOplogAsStandalone`.

The collaborators the orchestrator calls (settings, sentinel download, local
storage, archive downloader, mongod launcher, mongod service) live outside the
file.  They are taken as an environment `Env` of oracles.  Every oracle that
touches the outside world receives the history of calls made so far, so its
answer may depend on everything that happened before; the orchestrator itself
is a function from a history to a Go result and the extended history.
-/

namespace WalG

/-! ## Go values -/

/-- Go `error` values that are not nil: a base error, or an error produced by
`errors.Wrap` from `github.com/pkg/errors` (cause and message). -/
inductive GoError where
  | mk (msg : String)
  | withMessage (cause : GoError) (msg : String)
deriving DecidableEq, Repr

namespace errors

/-- `errors.Wrap(err, message)` for `err != nil` (all call sites in
`restore.go` are guarded by `err != nil`): the cause annotated with the
message.  The stack trace that `Wrap` also records is not part of the model. -/
def Wrap (err : GoError) (message : String) : GoError :=
  GoError.withMessage err message

end errors

namespace time

/-- `time.Duration`: a count of nanoseconds. -/
abbrev Duration := Int

def Nanosecond : Duration := 1
def Microsecond : Duration := 1000 * Nanosecond
def Millisecond : Duration := 1000 * Microsecond
def Second : Duration := 1000 * Millisecond
def Minute : Duration := 60 * Second

end time

namespace models

/-- The part of `models.MongoMeta` that `restore.go` reads. -/
structure MongoMeta where
  Version : String
deriving DecidableEq, Repr

/-- The part of `models.Backup` (the sentinel) that `restore.go` reads. -/
structure Backup where
  MongoMeta : models.MongoMeta
  UncompressedSize : Int
deriving DecidableEq, Repr

end models

/-- The part of `LocalStorage` that `restore.go` reads. -/
structure LocalStorage where
  MongodDBPath : String
deriving DecidableEq, Repr

/-- The types declared outside `restore.go` whose values the orchestrator only
passes along. -/
structure Types where
  Context : Type
  Uploader : Type
  Folder : Type
  Downloader : Type
  MongodProcess : Type
  MongodService : Type
  RsConfig : Type
  ShConfig : Type
  MongoCfgConfig : Type

/-- One observed call to a collaborator, with its arguments. -/
inductive Event (T : Types) where
  | GetBoolSettingDefault (key : String) (dflt : Bool)
  | DownloadSentinel (folder : T.Folder) (backupName : String)
  | EnsureCompatibilityToRestoreMongodVersions (backupVersion restVersion : String)
  | EnsureMongodFsLockFileIsEmpty (localStorage : LocalStorage)
  | CleanupMongodDBPath (localStorage : LocalStorage)
  | Download (downloader : T.Downloader) (backupName path : String)
  | StartMongodWithDisableLogicalSessionCacheRefresh (minimalConfigPath : String)
  | StartMongodWithRecoverFromOplogAsStandalone (minimalConfigPath : String)
  | CreateMongodService (ctx : T.Context) (appName uri : String) (timeout : time.Duration)
  | FixSystemDataAfterRestore (svc : T.MongodService) (rsConfig : T.RsConfig)
      (shConfig : T.ShConfig) (mongocfgConfig : T.MongoCfgConfig)
  | Shutdown (svc : T.MongodService)
  | Wait (proc : T.MongodProcess)
  | Close (proc : T.MongodProcess)

/-- The history of collaborator calls, oldest first. -/
abbrev Trace (T : Types) := List (Event T)

/-- The collaborators of `restore.go`.  A function with a `Trace` argument is
a call into the outside world, answered from the history of calls before it;
the others are pure accessors, constructors and policy functions. -/
structure Env (T : Types) where
  /-- The constant `internal.MongoDBRestoreDisableHostResetup`. -/
  MongoDBRestoreDisableHostResetup : String
  GetBoolSettingDefault : Trace T → String → Bool → Except GoError Bool
  /-- The accessor `Uploader.Folder()`. -/
  Folder : T.Uploader → T.Folder
  DownloadSentinel : Trace T → T.Folder → String → Except GoError models.Backup
  EnsureCompatibilityToRestoreMongodVersions : String → String → Option GoError
  EnsureMongodFsLockFileIsEmpty : Trace T → LocalStorage → Option GoError
  CleanupMongodDBPath : Trace T → LocalStorage → Option GoError
  CreateConcurrentDownloader : T.Uploader → T.Downloader
  Download : Trace T → T.Downloader → String → String → Option GoError
  StartMongodWithDisableLogicalSessionCacheRefresh :
    Trace T → String → Except GoError T.MongodProcess
  StartMongodWithRecoverFromOplogAsStandalone :
    Trace T → String → Except GoError T.MongodProcess
  /-- The accessor `MongodProcess.GetURI()`. -/
  GetURI : T.MongodProcess → String
  CreateMongodService :
    Trace T → T.Context → String → String → time.Duration → Except GoError T.MongodService
  ComputeMongoStartTimeout : Int → time.Duration
  FixSystemDataAfterRestore :
    Trace T → T.MongodService → T.RsConfig → T.ShConfig → T.MongoCfgConfig → Option GoError
  Shutdown : Trace T → T.MongodService → Option GoError
  Wait : Trace T → T.MongodProcess → Option GoError

/-- The struct `RestoreService`. -/
structure RestoreService (T : Types) where
  Context : T.Context
  LocalStorage : LocalStorage
  Uploader : T.Uploader
  minimalConfigPath : String

/-- A Go `error` result (`none` is nil) together with the history after the
call. -/
abbrev Outcome (T : Types) := Option GoError × Trace T

variable {T : Types}

/-! ## The functions of `restore.go` -/

/-- `RestoreService.downloadFromTarArchives`. -/
def downloadFromTarArchives (env : Env T) (restoreService : RestoreService T)
    (backupName : String) (h : Trace T) : Outcome T :=
  let downloader := env.CreateConcurrentDownloader restoreService.Uploader
  (env.Download h downloader backupName restoreService.LocalStorage.MongodDBPath,
   h ++ [Event.Download downloader backupName restoreService.LocalStorage.MongodDBPath])

/-- `RestoreService.fixSystemData`.  The deferred `mongodProcess.Close()` runs
after the body of the function has produced its result. -/
def fixSystemData (env : Env T) (restoreService : RestoreService T)
    (rsConfig : T.RsConfig) (shConfig : T.ShConfig) (mongocfgConfig : T.MongoCfgConfig)
    (h : Trace T) : Outcome T :=
  let h1 := h ++ [Event.StartMongodWithDisableLogicalSessionCacheRefresh
    restoreService.minimalConfigPath]
  match env.StartMongodWithDisableLogicalSessionCacheRefresh h
      restoreService.minimalConfigPath with
  | .error err => (some (errors.Wrap err "unable to start mongod in special mode"), h1)
  | .ok mongodProcess =>
    let body : Outcome T :=
      let uri := env.GetURI mongodProcess
      let h2 := h1 ++ [Event.CreateMongodService restoreService.Context "wal-g restore" uri
        (10 * time.Minute)]
      match env.CreateMongodService h1 restoreService.Context "wal-g restore" uri
          (10 * time.Minute) with
      | .error err => (some (errors.Wrap err "unable to create mongod service"), h2)
      | .ok mongodService =>
        let h3 := h2 ++ [Event.FixSystemDataAfterRestore mongodService rsConfig shConfig
          mongocfgConfig]
        match env.FixSystemDataAfterRestore h2 mongodService rsConfig shConfig
            mongocfgConfig with
        | some err => (some err, h3)
        | none =>
          let h4 := h3 ++ [Event.Shutdown mongodService]
          match env.Shutdown h3 mongodService with
          | some err => (some err, h4)
          | none => (env.Wait h4 mongodProcess, h4 ++ [Event.Wait mongodProcess])
    (body.1, body.2 ++ [Event.Close mongodProcess])

/-- `RestoreService.recoverFromOplogAsStandalone`.  The deferred
`mongodProcess.Close()` runs after the body of the function has produced its
result. -/
def recoverFromOplogAsStandalone (env : Env T) (restoreService : RestoreService T)
    (sentinel : models.Backup) (h : Trace T) : Outcome T :=
  let h1 := h ++ [Event.StartMongodWithRecoverFromOplogAsStandalone
    restoreService.minimalConfigPath]
  match env.StartMongodWithRecoverFromOplogAsStandalone h
      restoreService.minimalConfigPath with
  | .error err => (some (errors.Wrap err "unable to start mongod in special mode"), h1)
  | .ok mongodProcess =>
    let body : Outcome T :=
      let uri := env.GetURI mongodProcess
      let timeout := env.ComputeMongoStartTimeout sentinel.UncompressedSize
      let h2 := h1 ++ [Event.CreateMongodService restoreService.Context "wal-g restore" uri
        timeout]
      match env.CreateMongodService h1 restoreService.Context "wal-g restore" uri
          timeout with
      | .error err => (some (errors.Wrap err "unable to create mongod service"), h2)
      | .ok mongodService =>
        let h3 := h2 ++ [Event.Shutdown mongodService]
        match env.Shutdown h2 mongodService with
        | some err => (some err, h3)
        | none => (env.Wait h3 mongodProcess, h3 ++ [Event.Wait mongodProcess])
    (body.1, body.2 ++ [Event.Close mongodProcess])

/-- `RestoreService.DoRestore`.  The log line written before the download is
not a collaborator call and leaves no event. -/
def DoRestore (env : Env T) (restoreService : RestoreService T)
    (backupName restVersion : String)
    (rsConf : T.RsConfig) (shConf : T.ShConfig) (cfgConf : T.MongoCfgConfig)
    (h : Trace T) : Outcome T :=
  let h1 := h ++ [Event.GetBoolSettingDefault env.MongoDBRestoreDisableHostResetup false]
  match env.GetBoolSettingDefault h env.MongoDBRestoreDisableHostResetup false with
  | .error err => (some err, h1)
  | .ok disableHostResetup =>
    let folder := env.Folder restoreService.Uploader
    let h2 := h1 ++ [Event.DownloadSentinel folder backupName]
    match env.DownloadSentinel h1 folder backupName with
    | .error err => (some err, h2)
    | .ok sentinel =>
      let h3 := h2 ++ [Event.EnsureCompatibilityToRestoreMongodVersions
        sentinel.MongoMeta.Version restVersion]
      match env.EnsureCompatibilityToRestoreMongodVersions sentinel.MongoMeta.Version
          restVersion with
      | some err => (some err, h3)
      | none =>
        let h4 := h3 ++ [Event.EnsureMongodFsLockFileIsEmpty restoreService.LocalStorage]
        match env.EnsureMongodFsLockFileIsEmpty h3 restoreService.LocalStorage with
        | some err => (some err, h4)
        | none =>
          let h5 := h4 ++ [Event.CleanupMongodDBPath restoreService.LocalStorage]
          match env.CleanupMongodDBPath h4 restoreService.LocalStorage with
          | some err => (some err, h5)
          | none =>
            match downloadFromTarArchives env restoreService backupName h5 with
            | (some err, h6) => (some err, h6)
            | (none, h6) =>
              if !disableHostResetup then
                match fixSystemData env restoreService rsConf shConf cfgConf h6 with
                | (some err, h7) => (some err, h7)
                | (none, h7) =>
                  match recoverFromOplogAsStandalone env restoreService sentinel h7 with
                  | (some err, h8) => (some err, h8)
                  | (none, h8) => (none, h8)
              else
                (none, h6)

/-! ## Vocabulary of the statements -/

/-- The eight steps of the `DoRestore` pipeline, in source order. -/
inductive Step where
  | flagRead
  | sentinelDownload
  | compatibilityCheck
  | lockFileCheck
  | cleanup
  | archiveDownload
  | fixSystemData
  | recoverOplog
deriving DecidableEq, Repr

/-- The steps in the order `DoRestore` runs them. -/
def pipeline : List Step :=
  [.flagRead, .sentinelDownload, .compatibilityCheck, .lockFileCheck, .cleanup,
   .archiveDownload, .fixSystemData, .recoverOplog]

/-- Position of a step in `pipeline`. -/
def Step.index : Step → Nat
  | .flagRead => 0
  | .sentinelDownload => 1
  | .compatibilityCheck => 2
  | .lockFileCheck => 3
  | .cleanup => 4
  | .archiveDownload => 5
  | .fixSystemData => 6
  | .recoverOplog => 7

/-- The pipeline step that a call begins.  Each of the first six steps is one
call; a repair phase begins with the start of its mongod, and the calls made
on the started process and its service belong to the phase already begun. -/
def Event.begins : Event T → Option Step
  | .GetBoolSettingDefault _ _ => some .flagRead
  | .DownloadSentinel _ _ => some .sentinelDownload
  | .EnsureCompatibilityToRestoreMongodVersions _ _ => some .compatibilityCheck
  | .EnsureMongodFsLockFileIsEmpty _ => some .lockFileCheck
  | .CleanupMongodDBPath _ => some .cleanup
  | .Download _ _ _ => some .archiveDownload
  | .StartMongodWithDisableLogicalSessionCacheRefresh _ => some .fixSystemData
  | .StartMongodWithRecoverFromOplogAsStandalone _ => some .recoverOplog
  | _ => none

/-- The steps begun along a history, in the order they were begun. -/
def stepsBegun (t : Trace T) : List Step := t.filterMap Event.begins

/-- A call is `Close` on a process handle. -/
def Event.isClose : Event T → Bool
  | .Close _ => true
  | _ => false

/-- A call is `Wait` on a process handle. -/
def Event.isWait : Event T → Bool
  | .Wait _ => true
  | _ => false

/-- A call starts a mongod process or creates a mongod service. -/
def Event.isStartOrCreate : Event T → Bool
  | .StartMongodWithDisableLogicalSessionCacheRefresh _ => true
  | .StartMongodWithRecoverFromOplogAsStandalone _ => true
  | .CreateMongodService _ _ _ _ => true
  | _ => false

/-- A call is the metadata repair `FixSystemDataAfterRestore`. -/
def Event.isFixSystemDataAfterRestore : Event T → Bool
  | .FixSystemDataAfterRestore _ _ _ _ => true
  | _ => false

/-- The receiver and the arguments of one `DoRestore` call. -/
structure Call (T : Types) where
  restoreService : RestoreService T
  backupName : String
  restVersion : String
  rsConf : T.RsConfig
  shConf : T.ShConfig
  cfgConf : T.MongoCfgConfig

/-- The calls of steps one to six of `DoRestore`, when the sentinel read is
`sentinel`. -/
def preamble (env : Env T) (c : Call T) (sentinel : models.Backup) : Trace T :=
  [Event.GetBoolSettingDefault env.MongoDBRestoreDisableHostResetup false,
   Event.DownloadSentinel (env.Folder c.restoreService.Uploader) c.backupName,
   Event.EnsureCompatibilityToRestoreMongodVersions sentinel.MongoMeta.Version c.restVersion,
   Event.EnsureMongodFsLockFileIsEmpty c.restoreService.LocalStorage,
   Event.CleanupMongodDBPath c.restoreService.LocalStorage,
   Event.Download (env.CreateConcurrentDownloader c.restoreService.Uploader) c.backupName
     c.restoreService.LocalStorage.MongodDBPath]

/-- Step `s` succeeds when it is run from history `h` after the steps before
it: the flag is read as `flag`, the sentinel as `sentinel`, every other step
returns nil. -/
def StepSucceeds (env : Env T) (c : Call T) (flag : Bool) (sentinel : models.Backup)
    (h : Trace T) : Step → Prop
  | .flagRead =>
      env.GetBoolSettingDefault h env.MongoDBRestoreDisableHostResetup false = .ok flag
  | .sentinelDownload =>
      env.DownloadSentinel (h ++ (preamble env c sentinel).take 1)
        (env.Folder c.restoreService.Uploader) c.backupName = .ok sentinel
  | .compatibilityCheck =>
      env.EnsureCompatibilityToRestoreMongodVersions sentinel.MongoMeta.Version
        c.restVersion = none
  | .lockFileCheck =>
      env.EnsureMongodFsLockFileIsEmpty (h ++ (preamble env c sentinel).take 3)
        c.restoreService.LocalStorage = none
  | .cleanup =>
      env.CleanupMongodDBPath (h ++ (preamble env c sentinel).take 4)
        c.restoreService.LocalStorage = none
  | .archiveDownload =>
      (downloadFromTarArchives env c.restoreService c.backupName
        (h ++ (preamble env c sentinel).take 5)).1 = none
  | .fixSystemData =>
      (fixSystemData env c.restoreService c.rsConf c.shConf c.cfgConf
        (h ++ preamble env c sentinel)).1 = none
  | .recoverOplog =>
      (recoverFromOplogAsStandalone env c.restoreService sentinel
        (fixSystemData env c.restoreService c.rsConf c.shConf c.cfgConf
          (h ++ preamble env c sentinel)).2).1 = none

/-- Step `s` fails with the error `e` when it is run from history `h` after
the steps before it. -/
def StepFails (env : Env T) (c : Call T) (sentinel : models.Backup)
    (h : Trace T) (e : GoError) : Step → Prop
  | .flagRead =>
      env.GetBoolSettingDefault h env.MongoDBRestoreDisableHostResetup false = .error e
  | .sentinelDownload =>
      env.DownloadSentinel (h ++ (preamble env c sentinel).take 1)
        (env.Folder c.restoreService.Uploader) c.backupName = .error e
  | .compatibilityCheck =>
      env.EnsureCompatibilityToRestoreMongodVersions sentinel.MongoMeta.Version
        c.restVersion = some e
  | .lockFileCheck =>
      env.EnsureMongodFsLockFileIsEmpty (h ++ (preamble env c sentinel).take 3)
        c.restoreService.LocalStorage = some e
  | .cleanup =>
      env.CleanupMongodDBPath (h ++ (preamble env c sentinel).take 4)
        c.restoreService.LocalStorage = some e
  | .archiveDownload =>
      (downloadFromTarArchives env c.restoreService c.backupName
        (h ++ (preamble env c sentinel).take 5)).1 = some e
  | .fixSystemData =>
      (fixSystemData env c.restoreService c.rsConf c.shConf c.cfgConf
        (h ++ preamble env c sentinel)).1 = some e
  | .recoverOplog =>
      (recoverFromOplogAsStandalone env c.restoreService sentinel
        (fixSystemData env c.restoreService c.rsConf c.shConf c.cfgConf
          (h ++ preamble env c sentinel)).2).1 = some e

/-- Steps one to six all succeed from history `h`. -/
def PreambleSucceeds (env : Env T) (c : Call T) (flag : Bool) (sentinel : models.Backup)
    (h : Trace T) : Prop :=
  ∀ s : Step, s.index < 6 → StepSucceeds env c flag sentinel h s

/-- The calls of a run of `DoRestore` in which host resetup is enabled and
every call succeeds: the sentinel read is `sentinel`, the fix-system-data phase
starts process `p1` and creates service `svc1`, the recover-oplog phase starts
process `p2` and creates service `svc2`. -/
def fullRun (env : Env T) (c : Call T) (sentinel : models.Backup)
    (p1 : T.MongodProcess) (svc1 : T.MongodService)
    (p2 : T.MongodProcess) (svc2 : T.MongodService) : Trace T :=
  preamble env c sentinel ++
  [Event.StartMongodWithDisableLogicalSessionCacheRefresh c.restoreService.minimalConfigPath,
   Event.CreateMongodService c.restoreService.Context "wal-g restore" (env.GetURI p1)
     (10 * time.Minute),
   Event.FixSystemDataAfterRestore svc1 c.rsConf c.shConf c.cfgConf,
   Event.Shutdown svc1,
   Event.Wait p1,
   Event.Close p1,
   Event.StartMongodWithRecoverFromOplogAsStandalone c.restoreService.minimalConfigPath,
   Event.CreateMongodService c.restoreService.Context "wal-g restore" (env.GetURI p2)
     (env.ComputeMongoStartTimeout sentinel.UncompressedSize),
   Event.Shutdown svc2,
   Event.Wait p2,
   Event.Close p2]

/-- Every collaborator call of a run with host resetup enabled succeeds, each
one answered from the history `h` followed by the calls made before it. -/
def AllCallsSucceed (env : Env T) (c : Call T) (sentinel : models.Backup)
    (p1 : T.MongodProcess) (svc1 : T.MongodService)
    (p2 : T.MongodProcess) (svc2 : T.MongodService) (h : Trace T) : Prop :=
  PreambleSucceeds env c false sentinel h ∧
  env.StartMongodWithDisableLogicalSessionCacheRefresh
    (h ++ (fullRun env c sentinel p1 svc1 p2 svc2).take 6)
    c.restoreService.minimalConfigPath = .ok p1 ∧
  env.CreateMongodService (h ++ (fullRun env c sentinel p1 svc1 p2 svc2).take 7)
    c.restoreService.Context "wal-g restore" (env.GetURI p1) (10 * time.Minute) = .ok svc1 ∧
  env.FixSystemDataAfterRestore (h ++ (fullRun env c sentinel p1 svc1 p2 svc2).take 8)
    svc1 c.rsConf c.shConf c.cfgConf = none ∧
  env.Shutdown (h ++ (fullRun env c sentinel p1 svc1 p2 svc2).take 9) svc1 = none ∧
  env.Wait (h ++ (fullRun env c sentinel p1 svc1 p2 svc2).take 10) p1 = none ∧
  env.StartMongodWithRecoverFromOplogAsStandalone
    (h ++ (fullRun env c sentinel p1 svc1 p2 svc2).take 12)
    c.restoreService.minimalConfigPath = .ok p2 ∧
  env.CreateMongodService (h ++ (fullRun env c sentinel p1 svc1 p2 svc2).take 13)
    c.restoreService.Context "wal-g restore" (env.GetURI p2)
    (env.ComputeMongoStartTimeout sentinel.UncompressedSize) = .ok svc2 ∧
  env.Shutdown (h ++ (fullRun env c sentinel p1 svc1 p2 svc2).take 14) svc2 = none ∧
  env.Wait (h ++ (fullRun env c sentinel p1 svc1 p2 svc2).take 15) p2 = none

/-! ## A concrete environment -/

/-- Concrete carrier types: processes and services are numbered, the three
configuration blocks are strings. -/
abbrev DemoTypes : Types where
  Context := Unit
  Uploader := Unit
  Folder := Unit
  Downloader := Unit
  MongodProcess := Nat
  MongodService := Nat
  RsConfig := String
  ShConfig := String
  MongoCfgConfig := String

/-- A scripted environment.  The call made after `n` earlier calls fails with
`fail n` when that is an error and succeeds otherwise: the flag is read as
`flag`, the sentinel as `sentinel`, a started process and a created service
are numbered by the position of the call.  The compatibility policy is
`compat` and the start timeout is one second per byte. -/
def scriptedEnv (flag : Bool) (sentinel : models.Backup)
    (compat : String → String → Option GoError) (fail : Nat → Option GoError) :
    Env DemoTypes where
  MongoDBRestoreDisableHostResetup := "MONGODB_RESTORE_DISABLE_HOST_RESETUP"
  GetBoolSettingDefault := fun h _ _ =>
    match fail h.length with
    | some e => .error e
    | none => .ok flag
  Folder := fun _ => ()
  DownloadSentinel := fun h _ _ =>
    match fail h.length with
    | some e => .error e
    | none => .ok sentinel
  EnsureCompatibilityToRestoreMongodVersions := compat
  EnsureMongodFsLockFileIsEmpty := fun h _ => fail h.length
  CleanupMongodDBPath := fun h _ => fail h.length
  CreateConcurrentDownloader := fun _ => ()
  Download := fun h _ _ _ => fail h.length
  StartMongodWithDisableLogicalSessionCacheRefresh := fun h _ =>
    match fail h.length with
    | some e => .error e
    | none => .ok h.length
  StartMongodWithRecoverFromOplogAsStandalone := fun h _ =>
    match fail h.length with
    | some e => .error e
    | none => .ok h.length
  GetURI := fun _ => "mongodb://localhost:27018"
  CreateMongodService := fun h _ _ _ _ =>
    match fail h.length with
    | some e => .error e
    | none => .ok h.length
  ComputeMongoStartTimeout := fun size => size * time.Second
  FixSystemDataAfterRestore := fun h _ _ _ _ => fail h.length
  Shutdown := fun h _ => fail h.length
  Wait := fun h _ => fail h.length

/-- A script in which no call fails. -/
def noFailure : Nat → Option GoError := fun _ => none

/-- A script in which exactly the call made after `n` earlier calls fails,
with the error `e`. -/
def failAt (n : Nat) (e : GoError) : Nat → Option GoError :=
  fun k => if k = n then some e else none

/-- A compatibility policy that accepts every pair of versions. -/
def acceptAll : String → String → Option GoError := fun _ _ => none

/-- A compatibility policy that rejects every pair of versions. -/
def rejectAll : String → String → Option GoError :=
  fun _ _ => some (GoError.mk "incompatible mongod versions")

/-- A sentinel of a backup taken with mongod 4.2. -/
def demoSentinel : models.Backup where
  MongoMeta := { Version := "4.2" }
  UncompressedSize := 1024

/-- A restore service for the scripted environment. -/
def demoService : RestoreService DemoTypes where
  Context := ()
  LocalStorage := { MongodDBPath := "/var/lib/mongodb" }
  Uploader := ()
  minimalConfigPath := "/etc/mongod-minimal.conf"

/-- A restore call for the scripted environment. -/
def demoCall : Call DemoTypes where
  restoreService := demoService
  backupName := "stream_20240101T000000Z"
  restVersion := "4.2"
  rsConf := "rs0"
  shConf := "sh0"
  cfgConf := "cfg0"

/-! ## Shared lemmas -/

theorem preamble_unfold {env : Env T} {c : Call T} {flag : Bool} {sentinel : models.Backup}
    {h : Trace T} (hp : PreambleSucceeds env c flag sentinel h) :
    env.GetBoolSettingDefault h env.MongoDBRestoreDisableHostResetup false = .ok flag ∧
    env.DownloadSentinel
      (h ++ [Event.GetBoolSettingDefault env.MongoDBRestoreDisableHostResetup false])
      (env.Folder c.restoreService.Uploader) c.backupName = .ok sentinel ∧
    env.EnsureCompatibilityToRestoreMongodVersions sentinel.MongoMeta.Version
      c.restVersion = none ∧
    env.EnsureMongodFsLockFileIsEmpty (h ++ (preamble env c sentinel).take 3)
      c.restoreService.LocalStorage = none ∧
    env.CleanupMongodDBPath (h ++ (preamble env c sentinel).take 4)
      c.restoreService.LocalStorage = none ∧
    env.Download (h ++ (preamble env c sentinel).take 5)
      (env.CreateConcurrentDownloader c.restoreService.Uploader) c.backupName
      c.restoreService.LocalStorage.MongodDBPath = none := by
  refine ⟨hp .flagRead (by decide), hp .sentinelDownload (by decide),
    hp .compatibilityCheck (by decide), hp .lockFileCheck (by decide),
    hp .cleanup (by decide), hp .archiveDownload (by decide)⟩

/-- After a successful preamble `DoRestore` is the two repair phases in
sequence, or nothing more when host resetup is disabled. -/
theorem DoRestore_after_preamble {env : Env T} {c : Call T} {flag : Bool}
    {sentinel : models.Backup} {h : Trace T}
    (hp : PreambleSucceeds env c flag sentinel h) :
    DoRestore env c.restoreService c.backupName c.restVersion c.rsConf c.shConf c.cfgConf h =
      if flag then (none, h ++ preamble env c sentinel)
      else
        match (fixSystemData env c.restoreService c.rsConf c.shConf c.cfgConf
            (h ++ preamble env c sentinel)).1 with
        | some err => (some err, (fixSystemData env c.restoreService c.rsConf c.shConf
            c.cfgConf (h ++ preamble env c sentinel)).2)
        | none => recoverFromOplogAsStandalone env c.restoreService sentinel
            (fixSystemData env c.restoreService c.rsConf c.shConf c.cfgConf
              (h ++ preamble env c sentinel)).2 := by
  obtain ⟨h1, h2, h3, h4, h5, h6⟩ := preamble_unfold hp
  simp only [preamble, List.take] at h4 h5 h6
  cases flag <;>
    simp [DoRestore, downloadFromTarArchives, preamble, h1, h2, h3, h4, h5, h6]
  split <;> simp_all
  rename_i t _
  generalize recoverFromOplogAsStandalone env c.restoreService sentinel t = o
  rcases o with ⟨_ | _, _⟩ <;> rfl

/-! ### The repair phases, case by case -/

theorem fixSystemData_start_error {env : Env T} {rs : RestoreService T} {a : T.RsConfig}
    {b : T.ShConfig} {d : T.MongoCfgConfig} {h : Trace T} {e : GoError}
    (hs : env.StartMongodWithDisableLogicalSessionCacheRefresh h rs.minimalConfigPath
      = .error e) :
    fixSystemData env rs a b d h =
      (some (errors.Wrap e "unable to start mongod in special mode"),
       h ++ [Event.StartMongodWithDisableLogicalSessionCacheRefresh rs.minimalConfigPath]) := by
  simp [fixSystemData, hs]

theorem fixSystemData_create_error {env : Env T} {rs : RestoreService T} {a : T.RsConfig}
    {b : T.ShConfig} {d : T.MongoCfgConfig} {h : Trace T} {p : T.MongodProcess} {e : GoError}
    (hs : env.StartMongodWithDisableLogicalSessionCacheRefresh h rs.minimalConfigPath = .ok p)
    (hc : env.CreateMongodService
      (h ++ [Event.StartMongodWithDisableLogicalSessionCacheRefresh rs.minimalConfigPath])
      rs.Context "wal-g restore" (env.GetURI p) (10 * time.Minute) = .error e) :
    fixSystemData env rs a b d h =
      (some (errors.Wrap e "unable to create mongod service"),
       h ++ [Event.StartMongodWithDisableLogicalSessionCacheRefresh rs.minimalConfigPath,
         Event.CreateMongodService rs.Context "wal-g restore" (env.GetURI p) (10 * time.Minute),
         Event.Close p]) := by
  simp [fixSystemData, hs, hc]

theorem fixSystemData_repair_error {env : Env T} {rs : RestoreService T} {a : T.RsConfig}
    {b : T.ShConfig} {d : T.MongoCfgConfig} {h : Trace T} {p : T.MongodProcess}
    {svc : T.MongodService} {e : GoError}
    (hs : env.StartMongodWithDisableLogicalSessionCacheRefresh h rs.minimalConfigPath = .ok p)
    (hc : env.CreateMongodService
      (h ++ [Event.StartMongodWithDisableLogicalSessionCacheRefresh rs.minimalConfigPath])
      rs.Context "wal-g restore" (env.GetURI p) (10 * time.Minute) = .ok svc)
    (hf : env.FixSystemDataAfterRestore
      (h ++ [Event.StartMongodWithDisableLogicalSessionCacheRefresh rs.minimalConfigPath,
        Event.CreateMongodService rs.Context "wal-g restore" (env.GetURI p) (10 * time.Minute)])
      svc a b d = some e) :
    fixSystemData env rs a b d h =
      (some e,
       h ++ [Event.StartMongodWithDisableLogicalSessionCacheRefresh rs.minimalConfigPath,
         Event.CreateMongodService rs.Context "wal-g restore" (env.GetURI p) (10 * time.Minute),
         Event.FixSystemDataAfterRestore svc a b d,
         Event.Close p]) := by
  simp [fixSystemData, hs, hc, hf]

theorem fixSystemData_shutdown_error {env : Env T} {rs : RestoreService T} {a : T.RsConfig}
    {b : T.ShConfig} {d : T.MongoCfgConfig} {h : Trace T} {p : T.MongodProcess}
    {svc : T.MongodService} {e : GoError}
    (hs : env.StartMongodWithDisableLogicalSessionCacheRefresh h rs.minimalConfigPath = .ok p)
    (hc : env.CreateMongodService
      (h ++ [Event.StartMongodWithDisableLogicalSessionCacheRefresh rs.minimalConfigPath])
      rs.Context "wal-g restore" (env.GetURI p) (10 * time.Minute) = .ok svc)
    (hf : env.FixSystemDataAfterRestore
      (h ++ [Event.StartMongodWithDisableLogicalSessionCacheRefresh rs.minimalConfigPath,
        Event.CreateMongodService rs.Context "wal-g restore" (env.GetURI p) (10 * time.Minute)])
      svc a b d = none)
    (hd : env.Shutdown
      (h ++ [Event.StartMongodWithDisableLogicalSessionCacheRefresh rs.minimalConfigPath,
        Event.CreateMongodService rs.Context "wal-g restore" (env.GetURI p) (10 * time.Minute),
        Event.FixSystemDataAfterRestore svc a b d])
      svc = some e) :
    fixSystemData env rs a b d h =
      (some e,
       h ++ [Event.StartMongodWithDisableLogicalSessionCacheRefresh rs.minimalConfigPath,
         Event.CreateMongodService rs.Context "wal-g restore" (env.GetURI p) (10 * time.Minute),
         Event.FixSystemDataAfterRestore svc a b d,
         Event.Shutdown svc,
         Event.Close p]) := by
  simp [fixSystemData, hs, hc, hf, hd]

theorem fixSystemData_wait {env : Env T} {rs : RestoreService T} {a : T.RsConfig}
    {b : T.ShConfig} {d : T.MongoCfgConfig} {h : Trace T} {p : T.MongodProcess}
    {svc : T.MongodService}
    (hs : env.StartMongodWithDisableLogicalSessionCacheRefresh h rs.minimalConfigPath = .ok p)
    (hc : env.CreateMongodService
      (h ++ [Event.StartMongodWithDisableLogicalSessionCacheRefresh rs.minimalConfigPath])
      rs.Context "wal-g restore" (env.GetURI p) (10 * time.Minute) = .ok svc)
    (hf : env.FixSystemDataAfterRestore
      (h ++ [Event.StartMongodWithDisableLogicalSessionCacheRefresh rs.minimalConfigPath,
        Event.CreateMongodService rs.Context "wal-g restore" (env.GetURI p) (10 * time.Minute)])
      svc a b d = none)
    (hd : env.Shutdown
      (h ++ [Event.StartMongodWithDisableLogicalSessionCacheRefresh rs.minimalConfigPath,
        Event.CreateMongodService rs.Context "wal-g restore" (env.GetURI p) (10 * time.Minute),
        Event.FixSystemDataAfterRestore svc a b d])
      svc = none) :
    fixSystemData env rs a b d h =
      (env.Wait
        (h ++ [Event.StartMongodWithDisableLogicalSessionCacheRefresh rs.minimalConfigPath,
          Event.CreateMongodService rs.Context "wal-g restore" (env.GetURI p) (10 * time.Minute),
          Event.FixSystemDataAfterRestore svc a b d,
          Event.Shutdown svc]) p,
       h ++ [Event.StartMongodWithDisableLogicalSessionCacheRefresh rs.minimalConfigPath,
         Event.CreateMongodService rs.Context "wal-g restore" (env.GetURI p) (10 * time.Minute),
         Event.FixSystemDataAfterRestore svc a b d,
         Event.Shutdown svc,
         Event.Wait p,
         Event.Close p]) := by
  simp [fixSystemData, hs, hc, hf, hd]

theorem recover_start_error {env : Env T} {rs : RestoreService T} {sentinel : models.Backup}
    {h : Trace T} {e : GoError}
    (hs : env.StartMongodWithRecoverFromOplogAsStandalone h rs.minimalConfigPath = .error e) :
    recoverFromOplogAsStandalone env rs sentinel h =
      (some (errors.Wrap e "unable to start mongod in special mode"),
       h ++ [Event.StartMongodWithRecoverFromOplogAsStandalone rs.minimalConfigPath]) := by
  simp [recoverFromOplogAsStandalone, hs]

theorem recover_create_error {env : Env T} {rs : RestoreService T} {sentinel : models.Backup}
    {h : Trace T} {p : T.MongodProcess} {e : GoError}
    (hs : env.StartMongodWithRecoverFromOplogAsStandalone h rs.minimalConfigPath = .ok p)
    (hc : env.CreateMongodService
      (h ++ [Event.StartMongodWithRecoverFromOplogAsStandalone rs.minimalConfigPath])
      rs.Context "wal-g restore" (env.GetURI p)
      (env.ComputeMongoStartTimeout sentinel.UncompressedSize) = .error e) :
    recoverFromOplogAsStandalone env rs sentinel h =
      (some (errors.Wrap e "unable to create mongod service"),
       h ++ [Event.StartMongodWithRecoverFromOplogAsStandalone rs.minimalConfigPath,
         Event.CreateMongodService rs.Context "wal-g restore" (env.GetURI p)
           (env.ComputeMongoStartTimeout sentinel.UncompressedSize),
         Event.Close p]) := by
  simp [recoverFromOplogAsStandalone, hs, hc]

theorem recover_shutdown_error {env : Env T} {rs : RestoreService T}
    {sentinel : models.Backup} {h : Trace T} {p : T.MongodProcess} {svc : T.MongodService}
    {e : GoError}
    (hs : env.StartMongodWithRecoverFromOplogAsStandalone h rs.minimalConfigPath = .ok p)
    (hc : env.CreateMongodService
      (h ++ [Event.StartMongodWithRecoverFromOplogAsStandalone rs.minimalConfigPath])
      rs.Context "wal-g restore" (env.GetURI p)
      (env.ComputeMongoStartTimeout sentinel.UncompressedSize) = .ok svc)
    (hd : env.Shutdown
      (h ++ [Event.StartMongodWithRecoverFromOplogAsStandalone rs.minimalConfigPath,
        Event.CreateMongodService rs.Context "wal-g restore" (env.GetURI p)
          (env.ComputeMongoStartTimeout sentinel.UncompressedSize)])
      svc = some e) :
    recoverFromOplogAsStandalone env rs sentinel h =
      (some e,
       h ++ [Event.StartMongodWithRecoverFromOplogAsStandalone rs.minimalConfigPath,
         Event.CreateMongodService rs.Context "wal-g restore" (env.GetURI p)
           (env.ComputeMongoStartTimeout sentinel.UncompressedSize),
         Event.Shutdown svc,
         Event.Close p]) := by
  simp [recoverFromOplogAsStandalone, hs, hc, hd]

theorem recover_wait {env : Env T} {rs : RestoreService T}
    {sentinel : models.Backup} {h : Trace T} {p : T.MongodProcess} {svc : T.MongodService}
    (hs : env.StartMongodWithRecoverFromOplogAsStandalone h rs.minimalConfigPath = .ok p)
    (hc : env.CreateMongodService
      (h ++ [Event.StartMongodWithRecoverFromOplogAsStandalone rs.minimalConfigPath])
      rs.Context "wal-g restore" (env.GetURI p)
      (env.ComputeMongoStartTimeout sentinel.UncompressedSize) = .ok svc)
    (hd : env.Shutdown
      (h ++ [Event.StartMongodWithRecoverFromOplogAsStandalone rs.minimalConfigPath,
        Event.CreateMongodService rs.Context "wal-g restore" (env.GetURI p)
          (env.ComputeMongoStartTimeout sentinel.UncompressedSize)])
      svc = none) :
    recoverFromOplogAsStandalone env rs sentinel h =
      (env.Wait
        (h ++ [Event.StartMongodWithRecoverFromOplogAsStandalone rs.minimalConfigPath,
          Event.CreateMongodService rs.Context "wal-g restore" (env.GetURI p)
            (env.ComputeMongoStartTimeout sentinel.UncompressedSize),
          Event.Shutdown svc]) p,
       h ++ [Event.StartMongodWithRecoverFromOplogAsStandalone rs.minimalConfigPath,
         Event.CreateMongodService rs.Context "wal-g restore" (env.GetURI p)
           (env.ComputeMongoStartTimeout sentinel.UncompressedSize),
         Event.Shutdown svc,
         Event.Wait p,
         Event.Close p]) := by
  simp [recoverFromOplogAsStandalone, hs, hc, hd]

/-! ### Steps begun by a repair phase -/

theorem fixSystemData_stepsBegun (env : Env T) (rs : RestoreService T) (a : T.RsConfig)
    (b : T.ShConfig) (d : T.MongoCfgConfig) (h : Trace T) :
    ∃ new, (fixSystemData env rs a b d h).2 = h ++ new ∧
      stepsBegun new = [Step.fixSystemData] := by
  rcases hs : env.StartMongodWithDisableLogicalSessionCacheRefresh h rs.minimalConfigPath
    with e | p
  · rw [fixSystemData_start_error hs]
    exact ⟨_, rfl, rfl⟩
  rcases hc : env.CreateMongodService
      (h ++ [Event.StartMongodWithDisableLogicalSessionCacheRefresh rs.minimalConfigPath])
      rs.Context "wal-g restore" (env.GetURI p) (10 * time.Minute) with e | svc
  · rw [fixSystemData_create_error hs hc]
    exact ⟨_, rfl, rfl⟩
  rcases hf : env.FixSystemDataAfterRestore
      (h ++ [Event.StartMongodWithDisableLogicalSessionCacheRefresh rs.minimalConfigPath,
        Event.CreateMongodService rs.Context "wal-g restore" (env.GetURI p)
          (10 * time.Minute)])
      svc a b d with _ | e
  swap
  · rw [fixSystemData_repair_error hs hc hf]
    exact ⟨_, rfl, rfl⟩
  rcases hd : env.Shutdown
      (h ++ [Event.StartMongodWithDisableLogicalSessionCacheRefresh rs.minimalConfigPath,
        Event.CreateMongodService rs.Context "wal-g restore" (env.GetURI p)
          (10 * time.Minute),
        Event.FixSystemDataAfterRestore svc a b d])
      svc with _ | e
  swap
  · rw [fixSystemData_shutdown_error hs hc hf hd]
    exact ⟨_, rfl, rfl⟩
  rw [fixSystemData_wait hs hc hf hd]
  exact ⟨_, rfl, rfl⟩

theorem recover_stepsBegun (env : Env T) (rs : RestoreService T) (sentinel : models.Backup)
    (h : Trace T) :
    ∃ new, (recoverFromOplogAsStandalone env rs sentinel h).2 = h ++ new ∧
      stepsBegun new = [Step.recoverOplog] := by
  rcases hs : env.StartMongodWithRecoverFromOplogAsStandalone h rs.minimalConfigPath
    with e | p
  · rw [recover_start_error hs]
    exact ⟨_, rfl, rfl⟩
  rcases hc : env.CreateMongodService
      (h ++ [Event.StartMongodWithRecoverFromOplogAsStandalone rs.minimalConfigPath])
      rs.Context "wal-g restore" (env.GetURI p)
      (env.ComputeMongoStartTimeout sentinel.UncompressedSize) with e | svc
  · rw [recover_create_error hs hc]
    exact ⟨_, rfl, rfl⟩
  rcases hd : env.Shutdown
      (h ++ [Event.StartMongodWithRecoverFromOplogAsStandalone rs.minimalConfigPath,
        Event.CreateMongodService rs.Context "wal-g restore" (env.GetURI p)
          (env.ComputeMongoStartTimeout sentinel.UncompressedSize)])
      svc with _ | e
  swap
  · rw [recover_shutdown_error hs hc hd]
    exact ⟨_, rfl, rfl⟩
  rw [recover_wait hs hc hd]
  exact ⟨_, rfl, rfl⟩

theorem recover_no_repair (env : Env T) (rs : RestoreService T) (sentinel : models.Backup)
    (h : Trace T) :
    ∃ new, (recoverFromOplogAsStandalone env rs sentinel h).2 =
        h ++ Event.StartMongodWithRecoverFromOplogAsStandalone rs.minimalConfigPath :: new ∧
      ∀ ev ∈ new, ev.isFixSystemDataAfterRestore = false := by
  rcases hs : env.StartMongodWithRecoverFromOplogAsStandalone h rs.minimalConfigPath
    with e | p
  · rw [recover_start_error hs]
    exact ⟨[], rfl, by simp⟩
  rcases hc : env.CreateMongodService
      (h ++ [Event.StartMongodWithRecoverFromOplogAsStandalone rs.minimalConfigPath])
      rs.Context "wal-g restore" (env.GetURI p)
      (env.ComputeMongoStartTimeout sentinel.UncompressedSize) with e | svc
  · rw [recover_create_error hs hc]
    exact ⟨_, rfl, by simp [Event.isFixSystemDataAfterRestore]⟩
  rcases hd : env.Shutdown
      (h ++ [Event.StartMongodWithRecoverFromOplogAsStandalone rs.minimalConfigPath,
        Event.CreateMongodService rs.Context "wal-g restore" (env.GetURI p)
          (env.ComputeMongoStartTimeout sentinel.UncompressedSize)])
      svc with _ | e
  swap
  · rw [recover_shutdown_error hs hc hd]
    exact ⟨_, rfl, by simp [Event.isFixSystemDataAfterRestore]⟩
  rw [recover_wait hs hc hd]
  exact ⟨_, rfl, by simp [Event.isFixSystemDataAfterRestore]⟩

/-! ## The claims -/

/-- C1: when the flag read and the sentinel download succeed and the
compatibility checker rejects the pair (backup version, target version) with
an error, `DoRestore` returns exactly that error, and the calls it has made are
the flag read, the sentinel download and the compatibility check: no lock-file
check, no cleanup of the data directory, no archive download. -/
theorem DoRestore_incompatible_versions (env : Env T) (c : Call T) (flag : Bool)
    (sentinel : models.Backup) (h : Trace T) (e : GoError)
    (hflag : env.GetBoolSettingDefault h env.MongoDBRestoreDisableHostResetup false
      = .ok flag)
    (hsentinel : env.DownloadSentinel
      (h ++ [Event.GetBoolSettingDefault env.MongoDBRestoreDisableHostResetup false])
      (env.Folder c.restoreService.Uploader) c.backupName = .ok sentinel)
    (hcompat : env.EnsureCompatibilityToRestoreMongodVersions sentinel.MongoMeta.Version
      c.restVersion = some e) :
    DoRestore env c.restoreService c.backupName c.restVersion c.rsConf c.shConf c.cfgConf h =
      (some e,
       h ++ [Event.GetBoolSettingDefault env.MongoDBRestoreDisableHostResetup false,
         Event.DownloadSentinel (env.Folder c.restoreService.Uploader) c.backupName,
         Event.EnsureCompatibilityToRestoreMongodVersions sentinel.MongoMeta.Version
           c.restVersion]) := by
  simp [DoRestore, hflag, hsentinel, hcompat]

/-- Witness of C1: a backup taken with 4.2 restored under a policy that
rejects the pair. -/
theorem DoRestore_incompatible_versions_witness :
    DoRestore (scriptedEnv false demoSentinel rejectAll noFailure) demoService
        "stream_20240101T000000Z" "4.2" "rs0" "sh0" "cfg0" [] =
      (some (GoError.mk "incompatible mongod versions"),
       [Event.GetBoolSettingDefault "MONGODB_RESTORE_DISABLE_HOST_RESETUP" false,
        Event.DownloadSentinel () "stream_20240101T000000Z",
        Event.EnsureCompatibilityToRestoreMongodVersions "4.2" "4.2"]) :=
  DoRestore_incompatible_versions (scriptedEnv false demoSentinel rejectAll noFailure)
    demoCall false demoSentinel [] (GoError.mk "incompatible mongod versions") rfl rfl rfl

/-- C2: when the host-resetup-disable flag is read as true and the sentinel
download, compatibility check, lock-file check, cleanup and archive download
succeed, `DoRestore` returns nil after exactly these six calls, whatever the
three configuration values are: no mongod process is started and no mongod
service is created. -/
theorem DoRestore_resetup_disabled (env : Env T) (c : Call T) (sentinel : models.Backup)
    (h : Trace T) (hp : PreambleSucceeds env c true sentinel h) :
    DoRestore env c.restoreService c.backupName c.restVersion c.rsConf c.shConf c.cfgConf h =
      (none,
       h ++ [Event.GetBoolSettingDefault env.MongoDBRestoreDisableHostResetup false,
         Event.DownloadSentinel (env.Folder c.restoreService.Uploader) c.backupName,
         Event.EnsureCompatibilityToRestoreMongodVersions sentinel.MongoMeta.Version
           c.restVersion,
         Event.EnsureMongodFsLockFileIsEmpty c.restoreService.LocalStorage,
         Event.CleanupMongodDBPath c.restoreService.LocalStorage,
         Event.Download (env.CreateConcurrentDownloader c.restoreService.Uploader)
           c.backupName c.restoreService.LocalStorage.MongodDBPath]) ∧
    ∀ t, (DoRestore env c.restoreService c.backupName c.restVersion c.rsConf c.shConf
        c.cfgConf h).2 = h ++ t → ∀ ev ∈ t, ev.isStartOrCreate = false := by
  have key := DoRestore_after_preamble hp
  simp only [if_true, preamble] at key
  refine ⟨key, ?_⟩
  intro t ht ev hev
  rw [key] at ht
  have : t = _ := (List.append_cancel_left ht).symm
  subst this
  simp at hev
  rcases hev with rfl | rfl | rfl | rfl | rfl | rfl <;> rfl

/-- Witness of C2: the scripted environment with the flag set and no failing
call. -/
theorem DoRestore_resetup_disabled_witness :
    PreambleSucceeds (scriptedEnv true demoSentinel acceptAll noFailure) demoCall true
      demoSentinel [] ∧
    (DoRestore (scriptedEnv true demoSentinel acceptAll noFailure) demoService
        "stream_20240101T000000Z" "4.2" "rs0" "sh0" "cfg0" []).1 = none :=
  have hp : PreambleSucceeds (scriptedEnv true demoSentinel acceptAll noFailure) demoCall
      true demoSentinel [] := by
    intro s hs
    cases s <;> first | exact absurd hs (by decide) | rfl
  ⟨hp, congrArg Prod.fst
    (DoRestore_resetup_disabled (scriptedEnv true demoSentinel acceptAll noFailure)
      demoCall demoSentinel [] hp).1⟩

/-- C3: when the host-resetup-disable flag is read as false and every
collaborator call succeeds, `DoRestore` returns nil and the calls it has made
are, in this order: flag read, sentinel download, compatibility check,
lock-file check, cleanup, archive download; then the fix-system-data phase
(start with logical-session-cache refresh disabled, create service,
`FixSystemDataAfterRestore`, `Shutdown`, `Wait`, `Close`); then the
recover-oplog phase (start in recover-from-oplog-as-standalone mode, create
service, `Shutdown`, `Wait`, `Close`).  The first process is waited on and
closed before the second one is started. -/
theorem DoRestore_full_run (env : Env T) (c : Call T) (sentinel : models.Backup)
    (p1 : T.MongodProcess) (svc1 : T.MongodService)
    (p2 : T.MongodProcess) (svc2 : T.MongodService) (h : Trace T)
    (hall : AllCallsSucceed env c sentinel p1 svc1 p2 svc2 h) :
    DoRestore env c.restoreService c.backupName c.restVersion c.rsConf c.shConf c.cfgConf h =
      (none,
       h ++ [Event.GetBoolSettingDefault env.MongoDBRestoreDisableHostResetup false,
         Event.DownloadSentinel (env.Folder c.restoreService.Uploader) c.backupName,
         Event.EnsureCompatibilityToRestoreMongodVersions sentinel.MongoMeta.Version
           c.restVersion,
         Event.EnsureMongodFsLockFileIsEmpty c.restoreService.LocalStorage,
         Event.CleanupMongodDBPath c.restoreService.LocalStorage,
         Event.Download (env.CreateConcurrentDownloader c.restoreService.Uploader)
           c.backupName c.restoreService.LocalStorage.MongodDBPath,
         Event.StartMongodWithDisableLogicalSessionCacheRefresh
           c.restoreService.minimalConfigPath,
         Event.CreateMongodService c.restoreService.Context "wal-g restore" (env.GetURI p1)
           (10 * time.Minute),
         Event.FixSystemDataAfterRestore svc1 c.rsConf c.shConf c.cfgConf,
         Event.Shutdown svc1,
         Event.Wait p1,
         Event.Close p1,
         Event.StartMongodWithRecoverFromOplogAsStandalone
           c.restoreService.minimalConfigPath,
         Event.CreateMongodService c.restoreService.Context "wal-g restore" (env.GetURI p2)
           (env.ComputeMongoStartTimeout sentinel.UncompressedSize),
         Event.Shutdown svc2,
         Event.Wait p2,
         Event.Close p2]) := by
  obtain ⟨hp, a1, a2, a3, a4, a5, b1, b2, b3, b4⟩ := hall
  simp only [fullRun, preamble, List.take, List.cons_append, List.nil_append,
    List.append_assoc] at a1 a2 a3 a4 a5 b1 b2 b3 b4
  have hfix := fixSystemData_wait (a := c.rsConf) (b := c.shConf) (d := c.cfgConf)
    (by simpa using a1) (by simpa using a2) (by simpa using a3) (by simpa using a4)
  simp only [List.append_assoc, List.cons_append, List.nil_append] at hfix
  rw [a5] at hfix
  have hrec := @recover_wait T env c.restoreService sentinel _ p2 svc2
    (by simpa using b1) (by simpa using b2) (by simpa using b3)
  simp only [List.append_assoc, List.cons_append, List.nil_append] at hrec
  rw [b4] at hrec
  rw [DoRestore_after_preamble hp]
  simp only [preamble, Bool.false_eq_true, if_false, List.append_assoc, List.cons_append,
    List.nil_append, hfix, hrec]

/-- Witness of C3: the scripted environment with the flag unset and no
failing call. -/
theorem DoRestore_full_run_witness :
    AllCallsSucceed (scriptedEnv false demoSentinel acceptAll noFailure) demoCall
      demoSentinel (6 : Nat) (7 : Nat) (12 : Nat) (13 : Nat) [] ∧
    (DoRestore (scriptedEnv false demoSentinel acceptAll noFailure) demoService
        "stream_20240101T000000Z" "4.2" "rs0" "sh0" "cfg0" []).1 = none :=
  have hall : AllCallsSucceed (scriptedEnv false demoSentinel acceptAll noFailure) demoCall
      demoSentinel (6 : Nat) (7 : Nat) (12 : Nat) (13 : Nat) [] := by
    refine ⟨?_, rfl, rfl, rfl, rfl, rfl, rfl, rfl, rfl, rfl⟩
    intro s hs
    cases s <;> first | exact absurd hs (by decide) | rfl
  ⟨hall, congrArg Prod.fst
    (DoRestore_full_run (scriptedEnv false demoSentinel acceptAll noFailure)
      demoCall demoSentinel (6 : Nat) (7 : Nat) (12 : Nat) (13 : Nat) [] hall)⟩

/-- C4: whichever of the eight steps of `DoRestore` is the first to fail
(flag read, sentinel download, compatibility check, lock-file check, cleanup,
archive download, fix-system-data, recover-oplog), `DoRestore` returns the
error of that step, and the steps begun are exactly the steps up to and
including the failing one, each once and in pipeline order: no later step is
begun and none is run again.  When the failing step is one of the first six,
the calls made are exactly the calls of the steps up to it, so a failed
lock-file check is followed by no cleanup or download call and a failed
download by no start of a mongod. -/
theorem DoRestore_first_failure (env : Env T) (c : Call T) (flag : Bool)
    (sentinel : models.Backup) (h : Trace T) (s : Step) (e : GoError)
    (hprev : ∀ s' : Step, s'.index < s.index → StepSucceeds env c flag sentinel h s')
    (hresetup : 6 ≤ s.index → flag = false)
    (hfail : StepFails env c sentinel h e s) :
    ∃ new,
      DoRestore env c.restoreService c.backupName c.restVersion c.rsConf c.shConf
        c.cfgConf h = (some e, h ++ new) ∧
      stepsBegun new = pipeline.take (s.index + 1) ∧
      (s.index < 6 → new = (preamble env c sentinel).take (s.index + 1)) := by
  cases s
  case flagRead =>
    refine ⟨(preamble env c sentinel).take (0 + 1), ?_, rfl, fun _ => rfl⟩
    simp only [StepFails] at hfail
    simp [DoRestore, hfail, preamble]
  case sentinelDownload =>
    have h0 := hprev .flagRead (by decide)
    simp only [StepSucceeds] at h0
    simp only [StepFails, preamble, List.take] at hfail
    refine ⟨(preamble env c sentinel).take (1 + 1), ?_, rfl, fun _ => rfl⟩
    simp [DoRestore, h0, hfail, preamble]
  case compatibilityCheck =>
    have h0 := hprev .flagRead (by decide)
    have h1 := hprev .sentinelDownload (by decide)
    simp only [StepSucceeds, preamble, List.take] at h0 h1
    simp only [StepFails, preamble, List.take] at hfail
    refine ⟨(preamble env c sentinel).take (2 + 1), ?_, rfl, fun _ => rfl⟩
    simp [DoRestore, h0, h1, hfail, preamble]
  case lockFileCheck =>
    have h0 := hprev .flagRead (by decide)
    have h1 := hprev .sentinelDownload (by decide)
    have h2 := hprev .compatibilityCheck (by decide)
    simp only [StepSucceeds, preamble, List.take] at h0 h1 h2
    simp only [StepFails, preamble, List.take] at hfail
    refine ⟨(preamble env c sentinel).take (3 + 1), ?_, rfl, fun _ => rfl⟩
    simp [DoRestore, h0, h1, h2, hfail, preamble]
  case cleanup =>
    have h0 := hprev .flagRead (by decide)
    have h1 := hprev .sentinelDownload (by decide)
    have h2 := hprev .compatibilityCheck (by decide)
    have h3 := hprev .lockFileCheck (by decide)
    simp only [StepSucceeds, preamble, List.take] at h0 h1 h2 h3
    simp only [StepFails, preamble, List.take] at hfail
    refine ⟨(preamble env c sentinel).take (4 + 1), ?_, rfl, fun _ => rfl⟩
    simp [DoRestore, h0, h1, h2, h3, hfail, preamble]
  case archiveDownload =>
    have h0 := hprev .flagRead (by decide)
    have h1 := hprev .sentinelDownload (by decide)
    have h2 := hprev .compatibilityCheck (by decide)
    have h3 := hprev .lockFileCheck (by decide)
    have h4 := hprev .cleanup (by decide)
    simp only [StepSucceeds, preamble, List.take] at h0 h1 h2 h3 h4
    simp only [StepFails, preamble, List.take, downloadFromTarArchives] at hfail
    refine ⟨(preamble env c sentinel).take (5 + 1), ?_, rfl, fun _ => rfl⟩
    simp [DoRestore, downloadFromTarArchives, h0, h1, h2, h3, h4, hfail, preamble]
  case fixSystemData =>
    have hflag : flag = false := hresetup (by decide)
    subst hflag
    have hp : PreambleSucceeds env c false sentinel h := fun s' hs' => hprev s' hs'
    simp only [StepFails] at hfail
    obtain ⟨new, hnew, hsteps⟩ := fixSystemData_stepsBegun env c.restoreService c.rsConf
      c.shConf c.cfgConf (h ++ preamble env c sentinel)
    refine ⟨preamble env c sentinel ++ new, ?_, ?_, fun hlt => absurd hlt (by decide)⟩
    · rw [DoRestore_after_preamble hp]
      simp only [Bool.false_eq_true, if_false, hfail, hnew, List.append_assoc]
    · simp only [stepsBegun, List.filterMap_append] at hsteps ⊢
      rw [hsteps]
      rfl
  case recoverOplog =>
    have hflag : flag = false := hresetup (by decide)
    subst hflag
    have hp : PreambleSucceeds env c false sentinel h :=
      fun s' hs' => hprev s' (Nat.lt_trans hs' (by decide))
    have hfix := hprev .fixSystemData (by decide)
    simp only [StepSucceeds] at hfix
    simp only [StepFails] at hfail
    obtain ⟨new, hnew, hsteps⟩ := fixSystemData_stepsBegun env c.restoreService c.rsConf
      c.shConf c.cfgConf (h ++ preamble env c sentinel)
    obtain ⟨new', hnew', hsteps'⟩ := recover_stepsBegun env c.restoreService sentinel
      (fixSystemData env c.restoreService c.rsConf c.shConf c.cfgConf
        (h ++ preamble env c sentinel)).2
    refine ⟨preamble env c sentinel ++ new ++ new', ?_, ?_,
      fun hlt => absurd hlt (by decide)⟩
    · rw [DoRestore_after_preamble hp]
      simp only [Bool.false_eq_true, if_false, hfix]
      refine Prod.ext hfail ?_
      rw [hnew', hnew]
      simp only [List.append_assoc]
    · simp only [stepsBegun, List.filterMap_append] at hsteps hsteps' ⊢
      rw [hsteps, hsteps']
      rfl

/-- Witness of C4: the lock-file check is the first step to fail. -/
theorem DoRestore_first_failure_witness :
    StepFails (scriptedEnv false demoSentinel acceptAll (failAt 3 (GoError.mk "lock")))
      demoCall demoSentinel [] (GoError.mk "lock") Step.lockFileCheck ∧
    ∃ new,
      DoRestore (scriptedEnv false demoSentinel acceptAll (failAt 3 (GoError.mk "lock")))
        demoService "stream_20240101T000000Z" "4.2" "rs0" "sh0" "cfg0" []
        = (some (GoError.mk "lock"), [] ++ new) ∧
      stepsBegun new = [Step.flagRead, Step.sentinelDownload, Step.compatibilityCheck,
        Step.lockFileCheck] ∧
      (Step.lockFileCheck.index < 6 →
        new = (preamble (scriptedEnv false demoSentinel acceptAll
          (failAt 3 (GoError.mk "lock"))) demoCall demoSentinel).take 4) :=
  ⟨rfl,
   DoRestore_first_failure
    (scriptedEnv false demoSentinel acceptAll (failAt 3 (GoError.mk "lock")))
    demoCall false demoSentinel [] Step.lockFileCheck (GoError.mk "lock")
    (by intro s' hs'; cases s' <;> first | exact absurd hs' (by decide) | rfl)
    (by intro h6; exact absurd h6 (by decide))
    rfl⟩

/-- C5: in each of the two repair phases, for every outcome of the calls made
in the phase: if the start of the transient mongod succeeded with process `p`,
the calls of the phase are the start, then calls none of which is a `Close`,
then `Close p` as the last call before the phase returns, so `Close` is called
exactly once; if the start failed, the start is the only call of the phase and
`Close` is not called. -/
theorem repair_phase_closes_exactly_once (env : Env T) (rs : RestoreService T)
    (a : T.RsConfig) (b : T.ShConfig) (d : T.MongoCfgConfig) (sentinel : models.Backup)
    (h : Trace T) :
    (∀ p, env.StartMongodWithDisableLogicalSessionCacheRefresh h rs.minimalConfigPath
        = .ok p →
      ∃ mid, (fixSystemData env rs a b d h).2 =
          h ++ [Event.StartMongodWithDisableLogicalSessionCacheRefresh rs.minimalConfigPath]
            ++ mid ++ [Event.Close p] ∧
        ∀ ev ∈ mid, ev.isClose = false) ∧
    (∀ e, env.StartMongodWithDisableLogicalSessionCacheRefresh h rs.minimalConfigPath
        = .error e →
      (fixSystemData env rs a b d h).2 =
        h ++ [Event.StartMongodWithDisableLogicalSessionCacheRefresh rs.minimalConfigPath]) ∧
    (∀ p, env.StartMongodWithRecoverFromOplogAsStandalone h rs.minimalConfigPath = .ok p →
      ∃ mid, (recoverFromOplogAsStandalone env rs sentinel h).2 =
          h ++ [Event.StartMongodWithRecoverFromOplogAsStandalone rs.minimalConfigPath]
            ++ mid ++ [Event.Close p] ∧
        ∀ ev ∈ mid, ev.isClose = false) ∧
    (∀ e, env.StartMongodWithRecoverFromOplogAsStandalone h rs.minimalConfigPath
        = .error e →
      (recoverFromOplogAsStandalone env rs sentinel h).2 =
        h ++ [Event.StartMongodWithRecoverFromOplogAsStandalone rs.minimalConfigPath]) := by
  refine ⟨?_, ?_, ?_, ?_⟩
  · intro p hs
    rcases hc : env.CreateMongodService
        (h ++ [Event.StartMongodWithDisableLogicalSessionCacheRefresh rs.minimalConfigPath])
        rs.Context "wal-g restore" (env.GetURI p) (10 * time.Minute) with e | svc
    · rw [fixSystemData_create_error hs hc]
      exact ⟨[Event.CreateMongodService rs.Context "wal-g restore" (env.GetURI p)
        (10 * time.Minute)], by simp, by simp [Event.isClose]⟩
    rcases hf : env.FixSystemDataAfterRestore
        (h ++ [Event.StartMongodWithDisableLogicalSessionCacheRefresh rs.minimalConfigPath,
          Event.CreateMongodService rs.Context "wal-g restore" (env.GetURI p)
            (10 * time.Minute)])
        svc a b d with _ | e
    swap
    · rw [fixSystemData_repair_error hs hc hf]
      exact ⟨[Event.CreateMongodService rs.Context "wal-g restore" (env.GetURI p)
        (10 * time.Minute), Event.FixSystemDataAfterRestore svc a b d], by simp,
        by simp [Event.isClose]⟩
    rcases hd : env.Shutdown
        (h ++ [Event.StartMongodWithDisableLogicalSessionCacheRefresh rs.minimalConfigPath,
          Event.CreateMongodService rs.Context "wal-g restore" (env.GetURI p)
            (10 * time.Minute),
          Event.FixSystemDataAfterRestore svc a b d])
        svc with _ | e
    swap
    · rw [fixSystemData_shutdown_error hs hc hf hd]
      exact ⟨[Event.CreateMongodService rs.Context "wal-g restore" (env.GetURI p)
        (10 * time.Minute), Event.FixSystemDataAfterRestore svc a b d, Event.Shutdown svc],
        by simp, by simp [Event.isClose]⟩
    rw [fixSystemData_wait hs hc hf hd]
    exact ⟨[Event.CreateMongodService rs.Context "wal-g restore" (env.GetURI p)
      (10 * time.Minute), Event.FixSystemDataAfterRestore svc a b d, Event.Shutdown svc,
      Event.Wait p], by simp, by simp [Event.isClose]⟩
  · intro e hs
    rw [fixSystemData_start_error hs]
  · intro p hs
    rcases hc : env.CreateMongodService
        (h ++ [Event.StartMongodWithRecoverFromOplogAsStandalone rs.minimalConfigPath])
        rs.Context "wal-g restore" (env.GetURI p)
        (env.ComputeMongoStartTimeout sentinel.UncompressedSize) with e | svc
    · rw [recover_create_error hs hc]
      exact ⟨[Event.CreateMongodService rs.Context "wal-g restore" (env.GetURI p)
        (env.ComputeMongoStartTimeout sentinel.UncompressedSize)], by simp,
        by simp [Event.isClose]⟩
    rcases hd : env.Shutdown
        (h ++ [Event.StartMongodWithRecoverFromOplogAsStandalone rs.minimalConfigPath,
          Event.CreateMongodService rs.Context "wal-g restore" (env.GetURI p)
            (env.ComputeMongoStartTimeout sentinel.UncompressedSize)])
        svc with _ | e
    swap
    · rw [recover_shutdown_error hs hc hd]
      exact ⟨[Event.CreateMongodService rs.Context "wal-g restore" (env.GetURI p)
        (env.ComputeMongoStartTimeout sentinel.UncompressedSize), Event.Shutdown svc],
        by simp, by simp [Event.isClose]⟩
    rw [recover_wait hs hc hd]
    exact ⟨[Event.CreateMongodService rs.Context "wal-g restore" (env.GetURI p)
      (env.ComputeMongoStartTimeout sentinel.UncompressedSize), Event.Shutdown svc,
      Event.Wait p], by simp, by simp [Event.isClose]⟩
  · intro e hs
    rw [recover_start_error hs]

/-- Witness of C5: the fix-system-data phase of the scripted environment in
which the repair call (the third call of the phase) fails. -/
theorem repair_phase_closes_exactly_once_witness :
    (scriptedEnv false demoSentinel acceptAll
        (failAt 2 (GoError.mk "repair"))).StartMongodWithDisableLogicalSessionCacheRefresh
      [] "/etc/mongod-minimal.conf" = .ok (0 : Nat) ∧
    ∃ mid, (fixSystemData (scriptedEnv false demoSentinel acceptAll
          (failAt 2 (GoError.mk "repair"))) demoService "rs0" "sh0" "cfg0" []).2 =
        [] ++ [Event.StartMongodWithDisableLogicalSessionCacheRefresh
          "/etc/mongod-minimal.conf"] ++ mid ++ [Event.Close (0 : Nat)] ∧
      ∀ ev ∈ mid, ev.isClose = false :=
  ⟨rfl,
   (repair_phase_closes_exactly_once
    (scriptedEnv false demoSentinel acceptAll (failAt 2 (GoError.mk "repair")))
    demoService "rs0" "sh0" "cfg0" demoSentinel []).1 (0 : Nat) rfl⟩

/-- Counterexample to C6: in the scripted environment whose ninth call, the
metadata repair, fails, `DoRestore` returns the repair error after closing the
process, and `Wait` has not been called on any process. -/
theorem repair_failure_is_not_waited_on :
    DoRestore (scriptedEnv false demoSentinel acceptAll (failAt 8 (GoError.mk "repair")))
        demoService "stream_20240101T000000Z" "4.2" "rs0" "sh0" "cfg0" [] =
      (some (GoError.mk "repair"),
       [Event.GetBoolSettingDefault "MONGODB_RESTORE_DISABLE_HOST_RESETUP" false,
        Event.DownloadSentinel () "stream_20240101T000000Z",
        Event.EnsureCompatibilityToRestoreMongodVersions "4.2" "4.2",
        Event.EnsureMongodFsLockFileIsEmpty { MongodDBPath := "/var/lib/mongodb" },
        Event.CleanupMongodDBPath { MongodDBPath := "/var/lib/mongodb" },
        Event.Download () "stream_20240101T000000Z" "/var/lib/mongodb",
        Event.StartMongodWithDisableLogicalSessionCacheRefresh "/etc/mongod-minimal.conf",
        Event.CreateMongodService () "wal-g restore" "mongodb://localhost:27018"
          (10 * time.Minute),
        Event.FixSystemDataAfterRestore (7 : Nat) "rs0" "sh0" "cfg0",
        Event.Close (6 : Nat)]) ∧
    ¬ ∃ ev ∈ (DoRestore (scriptedEnv false demoSentinel acceptAll
          (failAt 8 (GoError.mk "repair")))
        demoService "stream_20240101T000000Z" "4.2" "rs0" "sh0" "cfg0" []).2,
      ev.isWait = true := by
  refine ⟨rfl, ?_⟩
  decide

/-- C6 (amended): when, in the fix-system-data phase, the process start and
the service creation succeed but `FixSystemDataAfterRestore` fails,
`DoRestore` returns that error after `Close` on the process of the phase:
neither `Shutdown` nor `Wait` is called and the recover-oplog phase never
starts.  More generally, when a call made through the mongod service fails
(`FixSystemDataAfterRestore`, or `Shutdown` in either phase), the phase closes
the process and returns the error without calling `Wait`. -/
theorem service_call_failure_closes_without_wait (env : Env T) (c : Call T)
    (sentinel : models.Backup) (h : Trace T) (p : T.MongodProcess) (svc : T.MongodService)
    (e : GoError)
    (hp : PreambleSucceeds env c false sentinel h)
    (hs : env.StartMongodWithDisableLogicalSessionCacheRefresh
      (h ++ preamble env c sentinel) c.restoreService.minimalConfigPath = .ok p)
    (hc : env.CreateMongodService
      (h ++ preamble env c sentinel ++
        [Event.StartMongodWithDisableLogicalSessionCacheRefresh
          c.restoreService.minimalConfigPath])
      c.restoreService.Context "wal-g restore" (env.GetURI p) (10 * time.Minute)
      = .ok svc) :
    (env.FixSystemDataAfterRestore
        (h ++ preamble env c sentinel ++
          [Event.StartMongodWithDisableLogicalSessionCacheRefresh
            c.restoreService.minimalConfigPath,
           Event.CreateMongodService c.restoreService.Context "wal-g restore"
            (env.GetURI p) (10 * time.Minute)])
        svc c.rsConf c.shConf c.cfgConf = some e →
      DoRestore env c.restoreService c.backupName c.restVersion c.rsConf c.shConf
        c.cfgConf h =
        (some e,
         h ++ preamble env c sentinel ++
          [Event.StartMongodWithDisableLogicalSessionCacheRefresh
            c.restoreService.minimalConfigPath,
           Event.CreateMongodService c.restoreService.Context "wal-g restore"
            (env.GetURI p) (10 * time.Minute),
           Event.FixSystemDataAfterRestore svc c.rsConf c.shConf c.cfgConf,
           Event.Close p])) ∧
    (env.FixSystemDataAfterRestore
        (h ++ preamble env c sentinel ++
          [Event.StartMongodWithDisableLogicalSessionCacheRefresh
            c.restoreService.minimalConfigPath,
           Event.CreateMongodService c.restoreService.Context "wal-g restore"
            (env.GetURI p) (10 * time.Minute)])
        svc c.rsConf c.shConf c.cfgConf = none →
      env.Shutdown
        (h ++ preamble env c sentinel ++
          [Event.StartMongodWithDisableLogicalSessionCacheRefresh
            c.restoreService.minimalConfigPath,
           Event.CreateMongodService c.restoreService.Context "wal-g restore"
            (env.GetURI p) (10 * time.Minute),
           Event.FixSystemDataAfterRestore svc c.rsConf c.shConf c.cfgConf])
        svc = some e →
      DoRestore env c.restoreService c.backupName c.restVersion c.rsConf c.shConf
        c.cfgConf h =
        (some e,
         h ++ preamble env c sentinel ++
          [Event.StartMongodWithDisableLogicalSessionCacheRefresh
            c.restoreService.minimalConfigPath,
           Event.CreateMongodService c.restoreService.Context "wal-g restore"
            (env.GetURI p) (10 * time.Minute),
           Event.FixSystemDataAfterRestore svc c.rsConf c.shConf c.cfgConf,
           Event.Shutdown svc,
           Event.Close p])) ∧
    (∀ (t : Trace T) (p2 : T.MongodProcess) (svc2 : T.MongodService),
      env.StartMongodWithRecoverFromOplogAsStandalone t c.restoreService.minimalConfigPath
        = .ok p2 →
      env.CreateMongodService
        (t ++ [Event.StartMongodWithRecoverFromOplogAsStandalone
          c.restoreService.minimalConfigPath])
        c.restoreService.Context "wal-g restore" (env.GetURI p2)
        (env.ComputeMongoStartTimeout sentinel.UncompressedSize) = .ok svc2 →
      env.Shutdown
        (t ++ [Event.StartMongodWithRecoverFromOplogAsStandalone
            c.restoreService.minimalConfigPath,
          Event.CreateMongodService c.restoreService.Context "wal-g restore"
            (env.GetURI p2) (env.ComputeMongoStartTimeout sentinel.UncompressedSize)])
        svc2 = some e →
      recoverFromOplogAsStandalone env c.restoreService sentinel t =
        (some e,
         t ++ [Event.StartMongodWithRecoverFromOplogAsStandalone
            c.restoreService.minimalConfigPath,
          Event.CreateMongodService c.restoreService.Context "wal-g restore"
            (env.GetURI p2) (env.ComputeMongoStartTimeout sentinel.UncompressedSize),
          Event.Shutdown svc2,
          Event.Close p2])) := by
  refine ⟨?_, ?_, ?_⟩
  · intro hf
    rw [DoRestore_after_preamble hp, fixSystemData_repair_error hs hc hf]
    simp
  · intro hf hd
    rw [DoRestore_after_preamble hp, fixSystemData_shutdown_error hs hc hf hd]
    simp
  · intro t p2 svc2 hs2 hc2 hd2
    exact recover_shutdown_error hs2 hc2 hd2

/-- Witness of the amended C6: the scripted environment whose ninth call, the
metadata repair, fails. -/
theorem service_call_failure_closes_without_wait_witness :
    PreambleSucceeds (scriptedEnv false demoSentinel acceptAll
      (failAt 8 (GoError.mk "repair"))) demoCall false demoSentinel [] ∧
    (DoRestore (scriptedEnv false demoSentinel acceptAll (failAt 8 (GoError.mk "repair")))
        demoService "stream_20240101T000000Z" "4.2" "rs0" "sh0" "cfg0" []).1 =
      some (GoError.mk "repair") :=
  have hp : PreambleSucceeds (scriptedEnv false demoSentinel acceptAll
      (failAt 8 (GoError.mk "repair"))) demoCall false demoSentinel [] := by
    intro s hs
    cases s <;> first | exact absurd hs (by decide) | rfl
  ⟨hp, congrArg Prod.fst
    ((service_call_failure_closes_without_wait
      (scriptedEnv false demoSentinel acceptAll (failAt 8 (GoError.mk "repair")))
      demoCall demoSentinel [] (6 : Nat) (7 : Nat) (GoError.mk "repair") hp rfl rfl).1 rfl)⟩

/-- Counterexample to C7: the same error returned by `Shutdown` in the
fix-system-data phase (tenth call) and in the recover-oplog phase (fifteenth
call) makes `DoRestore` return the same error value: the returned error does
not tell the two phases apart. -/
theorem shutdown_error_is_the_same_in_both_phases :
    DoRestore (scriptedEnv false demoSentinel acceptAll (failAt 9 (GoError.mk "shutdown")))
        demoService "stream_20240101T000000Z" "4.2" "rs0" "sh0" "cfg0" [] =
      (some (GoError.mk "shutdown"),
       [Event.GetBoolSettingDefault "MONGODB_RESTORE_DISABLE_HOST_RESETUP" false,
        Event.DownloadSentinel () "stream_20240101T000000Z",
        Event.EnsureCompatibilityToRestoreMongodVersions "4.2" "4.2",
        Event.EnsureMongodFsLockFileIsEmpty ⟨"/var/lib/mongodb"⟩,
        Event.CleanupMongodDBPath ⟨"/var/lib/mongodb"⟩,
        Event.Download () "stream_20240101T000000Z" "/var/lib/mongodb",
        Event.StartMongodWithDisableLogicalSessionCacheRefresh "/etc/mongod-minimal.conf",
        Event.CreateMongodService () "wal-g restore" "mongodb://localhost:27018"
          (10 * time.Minute),
        Event.FixSystemDataAfterRestore (7 : Nat) "rs0" "sh0" "cfg0",
        Event.Shutdown (7 : Nat),
        Event.Close (6 : Nat)]) ∧
    DoRestore (scriptedEnv false demoSentinel acceptAll (failAt 14 (GoError.mk "shutdown")))
        demoService "stream_20240101T000000Z" "4.2" "rs0" "sh0" "cfg0" [] =
      (some (GoError.mk "shutdown"),
       [Event.GetBoolSettingDefault "MONGODB_RESTORE_DISABLE_HOST_RESETUP" false,
        Event.DownloadSentinel () "stream_20240101T000000Z",
        Event.EnsureCompatibilityToRestoreMongodVersions "4.2" "4.2",
        Event.EnsureMongodFsLockFileIsEmpty ⟨"/var/lib/mongodb"⟩,
        Event.CleanupMongodDBPath ⟨"/var/lib/mongodb"⟩,
        Event.Download () "stream_20240101T000000Z" "/var/lib/mongodb",
        Event.StartMongodWithDisableLogicalSessionCacheRefresh "/etc/mongod-minimal.conf",
        Event.CreateMongodService () "wal-g restore" "mongodb://localhost:27018"
          (10 * time.Minute),
        Event.FixSystemDataAfterRestore (7 : Nat) "rs0" "sh0" "cfg0",
        Event.Shutdown (7 : Nat),
        Event.Wait (6 : Nat),
        Event.Close (6 : Nat),
        Event.StartMongodWithRecoverFromOplogAsStandalone "/etc/mongod-minimal.conf",
        Event.CreateMongodService () "wal-g restore" "mongodb://localhost:27018"
          (1024 * time.Second),
        Event.Shutdown (13 : Nat),
        Event.Close (12 : Nat)]) ∧
    (DoRestore (scriptedEnv false demoSentinel acceptAll (failAt 9 (GoError.mk "shutdown")))
        demoService "stream_20240101T000000Z" "4.2" "rs0" "sh0" "cfg0" []).1 =
      (DoRestore (scriptedEnv false demoSentinel acceptAll
          (failAt 14 (GoError.mk "shutdown")))
        demoService "stream_20240101T000000Z" "4.2" "rs0" "sh0" "cfg0" []).1 :=
  ⟨rfl, rfl, rfl⟩

/-- C7 (amended): an error that `DoRestore` returns because a sub-step of a
transient instance failed is the error returned by the phase, unchanged, and
it depends on the sub-step only, not on the phase.  In both phases a failed
start with error `e` gives `e` wrapped with "unable to start mongod in special
mode" and a failed service creation gives `e` wrapped with "unable to create
mongod service"; an error of the repair call, of `Shutdown` or of `Wait` is
returned as it is. -/
theorem transient_errors_by_sub_step (env : Env T) (c : Call T) (sentinel : models.Backup)
    (h : Trace T) (hp : PreambleSucceeds env c false sentinel h) :
    (∀ e, StepFails env c sentinel h e Step.fixSystemData →
      (DoRestore env c.restoreService c.backupName c.restVersion c.rsConf c.shConf
        c.cfgConf h).1 = some e) ∧
    (∀ e, StepSucceeds env c false sentinel h Step.fixSystemData →
      StepFails env c sentinel h e Step.recoverOplog →
      (DoRestore env c.restoreService c.backupName c.restVersion c.rsConf c.shConf
        c.cfgConf h).1 = some e) ∧
    ∀ (rs : RestoreService T) (a : T.RsConfig) (b : T.ShConfig) (d : T.MongoCfgConfig)
      (t : Trace T) (e : GoError),
      (env.StartMongodWithDisableLogicalSessionCacheRefresh t rs.minimalConfigPath = .error e →
        (fixSystemData env rs a b d t).1 =
          some (errors.Wrap e "unable to start mongod in special mode")) ∧
      (env.StartMongodWithRecoverFromOplogAsStandalone t rs.minimalConfigPath = .error e →
        (recoverFromOplogAsStandalone env rs sentinel t).1 =
          some (errors.Wrap e "unable to start mongod in special mode")) ∧
      (∀ p, env.StartMongodWithDisableLogicalSessionCacheRefresh t rs.minimalConfigPath = .ok p →
        env.CreateMongodService
          (t ++ [Event.StartMongodWithDisableLogicalSessionCacheRefresh rs.minimalConfigPath])
        rs.Context "wal-g restore" (env.GetURI p) (10 * time.Minute) = .error e →
        (fixSystemData env rs a b d t).1 = some (errors.Wrap e "unable to create mongod service")) ∧
      (∀ p, env.StartMongodWithRecoverFromOplogAsStandalone t rs.minimalConfigPath = .ok p →
        env.CreateMongodService
          (t ++ [Event.StartMongodWithRecoverFromOplogAsStandalone rs.minimalConfigPath])
        rs.Context "wal-g restore" (env.GetURI p)
        (env.ComputeMongoStartTimeout sentinel.UncompressedSize) = .error e →
        (recoverFromOplogAsStandalone env rs sentinel t).1 =
          some (errors.Wrap e "unable to create mongod service")) ∧
      (∀ p svc,
        env.StartMongodWithDisableLogicalSessionCacheRefresh t rs.minimalConfigPath = .ok p →
        env.CreateMongodService
          (t ++ [Event.StartMongodWithDisableLogicalSessionCacheRefresh rs.minimalConfigPath])
        rs.Context "wal-g restore" (env.GetURI p) (10 * time.Minute) = .ok svc →
        env.FixSystemDataAfterRestore
        (t ++ [Event.StartMongodWithDisableLogicalSessionCacheRefresh rs.minimalConfigPath,
          Event.CreateMongodService rs.Context "wal-g restore" (env.GetURI p)
          (10 * time.Minute)])
        svc a b d = some e →
        (fixSystemData env rs a b d t).1 = some e) ∧
      (∀ p svc,
        env.StartMongodWithDisableLogicalSessionCacheRefresh t rs.minimalConfigPath = .ok p →
        env.CreateMongodService
          (t ++ [Event.StartMongodWithDisableLogicalSessionCacheRefresh rs.minimalConfigPath])
        rs.Context "wal-g restore" (env.GetURI p) (10 * time.Minute) = .ok svc →
        env.FixSystemDataAfterRestore
        (t ++ [Event.StartMongodWithDisableLogicalSessionCacheRefresh rs.minimalConfigPath,
          Event.CreateMongodService rs.Context "wal-g restore" (env.GetURI p)
          (10 * time.Minute)])
        svc a b d = none →
        env.Shutdown
        (t ++ [Event.StartMongodWithDisableLogicalSessionCacheRefresh rs.minimalConfigPath,
          Event.CreateMongodService rs.Context "wal-g restore" (env.GetURI p)
          (10 * time.Minute),
          Event.FixSystemDataAfterRestore svc a b d])
        svc = some e →
        (fixSystemData env rs a b d t).1 = some e) ∧
      (∀ p svc, env.StartMongodWithRecoverFromOplogAsStandalone t rs.minimalConfigPath = .ok p →
        env.CreateMongodService
          (t ++ [Event.StartMongodWithRecoverFromOplogAsStandalone rs.minimalConfigPath])
        rs.Context "wal-g restore" (env.GetURI p)
        (env.ComputeMongoStartTimeout sentinel.UncompressedSize) = .ok svc →
        env.Shutdown
        (t ++ [Event.StartMongodWithRecoverFromOplogAsStandalone rs.minimalConfigPath,
          Event.CreateMongodService rs.Context "wal-g restore" (env.GetURI p)
          (env.ComputeMongoStartTimeout sentinel.UncompressedSize)])
        svc = some e →
        (recoverFromOplogAsStandalone env rs sentinel t).1 = some e) ∧
      (∀ p svc,
        env.StartMongodWithDisableLogicalSessionCacheRefresh t rs.minimalConfigPath = .ok p →
        env.CreateMongodService
          (t ++ [Event.StartMongodWithDisableLogicalSessionCacheRefresh rs.minimalConfigPath])
        rs.Context "wal-g restore" (env.GetURI p) (10 * time.Minute) = .ok svc →
        env.FixSystemDataAfterRestore
        (t ++ [Event.StartMongodWithDisableLogicalSessionCacheRefresh rs.minimalConfigPath,
          Event.CreateMongodService rs.Context "wal-g restore" (env.GetURI p)
          (10 * time.Minute)])
        svc a b d = none →
        env.Shutdown
        (t ++ [Event.StartMongodWithDisableLogicalSessionCacheRefresh rs.minimalConfigPath,
          Event.CreateMongodService rs.Context "wal-g restore" (env.GetURI p)
          (10 * time.Minute),
          Event.FixSystemDataAfterRestore svc a b d])
        svc = none →
        env.Wait
        (t ++ [Event.StartMongodWithDisableLogicalSessionCacheRefresh rs.minimalConfigPath,
          Event.CreateMongodService rs.Context "wal-g restore" (env.GetURI p)
          (10 * time.Minute),
          Event.FixSystemDataAfterRestore svc a b d,
          Event.Shutdown svc])
        p = some e →
        (fixSystemData env rs a b d t).1 = some e) ∧
      (∀ p svc, env.StartMongodWithRecoverFromOplogAsStandalone t rs.minimalConfigPath = .ok p →
        env.CreateMongodService
          (t ++ [Event.StartMongodWithRecoverFromOplogAsStandalone rs.minimalConfigPath])
        rs.Context "wal-g restore" (env.GetURI p)
        (env.ComputeMongoStartTimeout sentinel.UncompressedSize) = .ok svc →
        env.Shutdown
        (t ++ [Event.StartMongodWithRecoverFromOplogAsStandalone rs.minimalConfigPath,
          Event.CreateMongodService rs.Context "wal-g restore" (env.GetURI p)
          (env.ComputeMongoStartTimeout sentinel.UncompressedSize)])
        svc = none →
        env.Wait
        (t ++ [Event.StartMongodWithRecoverFromOplogAsStandalone rs.minimalConfigPath,
          Event.CreateMongodService rs.Context "wal-g restore" (env.GetURI p)
          (env.ComputeMongoStartTimeout sentinel.UncompressedSize),
          Event.Shutdown svc])
        p = some e →
        (recoverFromOplogAsStandalone env rs sentinel t).1 = some e) := by
  refine ⟨?_, ?_, ?_⟩
  · intro e hfail
    simp only [StepFails] at hfail
    rw [DoRestore_after_preamble hp]
    simp [hfail]
  · intro e hfix hfail
    simp only [StepSucceeds] at hfix
    simp only [StepFails] at hfail
    rw [DoRestore_after_preamble hp]
    simp [hfix, hfail]
  · intro rs a b d t e
    refine ⟨?_, ?_, ?_, ?_, ?_, ?_, ?_, ?_, ?_⟩
    · intro hs
      rw [fixSystemData_start_error hs]
    · intro hs
      rw [recover_start_error hs]
    · intro p hs hc
      rw [fixSystemData_create_error hs hc]
    · intro p hs hc
      rw [recover_create_error hs hc]
    · intro p svc hs hc hf
      rw [fixSystemData_repair_error hs hc hf]
    · intro p svc hs hc hf hd
      rw [fixSystemData_shutdown_error hs hc hf hd]
    · intro p svc hs hc hd
      rw [recover_shutdown_error hs hc hd]
    · intro p svc hs hc hf hd hw
      rw [fixSystemData_wait hs hc hf hd, hw]
    · intro p svc hs hc hd hw
      rw [recover_wait hs hc hd, hw]

/-- Witness of the amended C7: the scripted environment whose fifteenth call,
`Shutdown` in the recover-oplog phase, fails. -/
theorem transient_errors_by_sub_step_witness :
    PreambleSucceeds (scriptedEnv false demoSentinel acceptAll
      (failAt 14 (GoError.mk "shutdown"))) demoCall false demoSentinel [] ∧
    (DoRestore (scriptedEnv false demoSentinel acceptAll (failAt 14 (GoError.mk "shutdown")))
        demoService "stream_20240101T000000Z" "4.2" "rs0" "sh0" "cfg0" []).1 =
      some (GoError.mk "shutdown") :=
  have hp : PreambleSucceeds (scriptedEnv false demoSentinel acceptAll
      (failAt 14 (GoError.mk "shutdown"))) demoCall false demoSentinel [] := by
    intro s hs
    cases s <;> first | exact absurd hs (by decide) | rfl
  ⟨hp, (transient_errors_by_sub_step
      (scriptedEnv false demoSentinel acceptAll (failAt 14 (GoError.mk "shutdown")))
      demoCall demoSentinel [] hp).2.1 (GoError.mk "shutdown") rfl rfl⟩

/-- Counterexample to C8: in the scripted environment whose third call of the
phase, the metadata repair, fails, `fixSystemData` returns the repair error
itself, which is not an error wrapped with either of the two messages. -/
theorem repair_error_is_not_wrapped :
    fixSystemData (scriptedEnv false demoSentinel acceptAll (failAt 2 (GoError.mk "repair")))
        demoService "rs0" "sh0" "cfg0" [] =
      (some (GoError.mk "repair"),
       [Event.StartMongodWithDisableLogicalSessionCacheRefresh "/etc/mongod-minimal.conf",
        Event.CreateMongodService () "wal-g restore" "mongodb://localhost:27018"
          (10 * time.Minute),
        Event.FixSystemDataAfterRestore (1 : Nat) "rs0" "sh0" "cfg0",
        Event.Close (0 : Nat)]) ∧
    ¬ ∃ e : GoError,
      (fixSystemData (scriptedEnv false demoSentinel acceptAll
          (failAt 2 (GoError.mk "repair"))) demoService "rs0" "sh0" "cfg0" []).1 =
        some (errors.Wrap e "unable to start mongod in special mode") ∨
      (fixSystemData (scriptedEnv false demoSentinel acceptAll
          (failAt 2 (GoError.mk "repair"))) demoService "rs0" "sh0" "cfg0" []).1 =
        some (errors.Wrap e "unable to create mongod service") := by
  refine ⟨rfl, ?_⟩
  rintro ⟨e, he | he⟩
  · have h1 : (fixSystemData (scriptedEnv false demoSentinel acceptAll
        (failAt 2 (GoError.mk "repair"))) demoService "rs0" "sh0" "cfg0" []).1 =
        some (GoError.mk "repair") := rfl
    rw [h1] at he
    simp [errors.Wrap] at he
  · have h1 : (fixSystemData (scriptedEnv false demoSentinel acceptAll
        (failAt 2 (GoError.mk "repair"))) demoService "rs0" "sh0" "cfg0" []).1 =
        some (GoError.mk "repair") := rfl
    rw [h1] at he
    simp [errors.Wrap] at he

/-- C8 (amended): in `fixSystemData`, a failure `e` of the start of the
transient mongod is returned wrapped with "unable to start mongod in special
mode" and nothing is closed; a failure `e` of the service creation is returned
wrapped with "unable to create mongod service" after the deferred `Close`; a
failure `e` of the metadata repair call is returned unchanged, not wrapped,
after the deferred `Close`.  In each case `DoRestore` returns the error of the
phase and makes no further call. -/
theorem fixSystemData_error_wrapping (env : Env T) (c : Call T) (sentinel : models.Backup)
    (h : Trace T) (hp : PreambleSucceeds env c false sentinel h) :
    (∀ e, StepFails env c sentinel h e Step.fixSystemData →
      DoRestore env c.restoreService c.backupName c.restVersion c.rsConf c.shConf
        c.cfgConf h =
        (some e, (fixSystemData env c.restoreService c.rsConf c.shConf c.cfgConf
          (h ++ preamble env c sentinel)).2)) ∧
    ∀ (rs : RestoreService T) (a : T.RsConfig) (b : T.ShConfig) (d : T.MongoCfgConfig)
      (t : Trace T) (e : GoError),
      (env.StartMongodWithDisableLogicalSessionCacheRefresh t rs.minimalConfigPath = .error e →
        fixSystemData env rs a b d t =
          (some (errors.Wrap e "unable to start mongod in special mode"),
           t ++ [Event.StartMongodWithDisableLogicalSessionCacheRefresh rs.minimalConfigPath])) ∧
      (∀ p, env.StartMongodWithDisableLogicalSessionCacheRefresh t rs.minimalConfigPath = .ok p →
        env.CreateMongodService
          (t ++ [Event.StartMongodWithDisableLogicalSessionCacheRefresh rs.minimalConfigPath])
        rs.Context "wal-g restore" (env.GetURI p) (10 * time.Minute) = .error e →
        fixSystemData env rs a b d t =
          (some (errors.Wrap e "unable to create mongod service"),
           t ++ [Event.StartMongodWithDisableLogicalSessionCacheRefresh rs.minimalConfigPath,
          Event.CreateMongodService rs.Context "wal-g restore" (env.GetURI p)
          (10 * time.Minute),
          Event.Close p])) ∧
      (∀ p svc,
        env.StartMongodWithDisableLogicalSessionCacheRefresh t rs.minimalConfigPath = .ok p →
        env.CreateMongodService
          (t ++ [Event.StartMongodWithDisableLogicalSessionCacheRefresh rs.minimalConfigPath])
        rs.Context "wal-g restore" (env.GetURI p) (10 * time.Minute) = .ok svc →
        env.FixSystemDataAfterRestore
        (t ++ [Event.StartMongodWithDisableLogicalSessionCacheRefresh rs.minimalConfigPath,
          Event.CreateMongodService rs.Context "wal-g restore" (env.GetURI p)
          (10 * time.Minute)])
        svc a b d = some e →
        fixSystemData env rs a b d t =
          (some e,
           t ++ [Event.StartMongodWithDisableLogicalSessionCacheRefresh rs.minimalConfigPath,
          Event.CreateMongodService rs.Context "wal-g restore" (env.GetURI p)
          (10 * time.Minute),
          Event.FixSystemDataAfterRestore svc a b d,
          Event.Close p])) := by
  refine ⟨?_, ?_⟩
  · intro e hfail
    simp only [StepFails] at hfail
    rw [DoRestore_after_preamble hp]
    simp [hfail]
  · intro rs a b d t e
    exact ⟨fun hs => fixSystemData_start_error hs,
      fun p hs hc => fixSystemData_create_error hs hc,
      fun p svc hs hc hf => fixSystemData_repair_error hs hc hf⟩

/-- Witness of the amended C8: the scripted environment whose ninth call, the
metadata repair, fails. -/
theorem fixSystemData_error_wrapping_witness :
    PreambleSucceeds (scriptedEnv false demoSentinel acceptAll
      (failAt 8 (GoError.mk "repair"))) demoCall false demoSentinel [] ∧
    (DoRestore (scriptedEnv false demoSentinel acceptAll (failAt 8 (GoError.mk "repair")))
        demoService "stream_20240101T000000Z" "4.2" "rs0" "sh0" "cfg0" []).1 =
      some (GoError.mk "repair") :=
  have hp : PreambleSucceeds (scriptedEnv false demoSentinel acceptAll
      (failAt 8 (GoError.mk "repair"))) demoCall false demoSentinel [] := by
    intro s hs
    cases s <;> first | exact absurd hs (by decide) | rfl
  ⟨hp, congrArg Prod.fst
    ((fixSystemData_error_wrapping
      (scriptedEnv false demoSentinel acceptAll (failAt 8 (GoError.mk "repair")))
      demoCall demoSentinel [] hp).1 (GoError.mk "repair") rfl)⟩

/-- C9: in the fix-system-data phase, for all three configuration values
passed to `DoRestore`: once the process of the phase is started, the mongod
service is created against the URI of that process with an operation timeout
of `10 * time.Minute`, that is 600000000000 nanoseconds, whatever the inputs
and the sentinel are; and once the service is created,
`FixSystemDataAfterRestore` is the next call, made on that service with the
three configuration values of the caller in the same positions, and it is not
called again in the rest of the run. -/
theorem fixSystemData_service_and_repair_arguments (env : Env T) (c : Call T)
    (sentinel : models.Backup) (h : Trace T) (p : T.MongodProcess)
    (hp : PreambleSucceeds env c false sentinel h)
    (hs : env.StartMongodWithDisableLogicalSessionCacheRefresh
      (h ++ preamble env c sentinel) c.restoreService.minimalConfigPath = .ok p) :
    10 * time.Minute = (600000000000 : Int) ∧
    ∃ rest,
      (DoRestore env c.restoreService c.backupName c.restVersion c.rsConf c.shConf
        c.cfgConf h).2 =
        h ++ preamble env c sentinel ++
          [Event.StartMongodWithDisableLogicalSessionCacheRefresh
            c.restoreService.minimalConfigPath,
           Event.CreateMongodService c.restoreService.Context "wal-g restore" (env.GetURI p)
            (10 * time.Minute)] ++ rest ∧
      ∀ svc, env.CreateMongodService
          (h ++ preamble env c sentinel ++
            [Event.StartMongodWithDisableLogicalSessionCacheRefresh
            c.restoreService.minimalConfigPath])
          c.restoreService.Context "wal-g restore" (env.GetURI p) (10 * time.Minute)
          = .ok svc →
        ∃ rest', rest =
            Event.FixSystemDataAfterRestore svc c.rsConf c.shConf c.cfgConf :: rest' ∧
          ∀ ev ∈ rest', ev.isFixSystemDataAfterRestore = false := by
  refine ⟨by decide, ?_⟩
  rw [DoRestore_after_preamble hp]
  simp only [Bool.false_eq_true, if_false]
  rcases hc : env.CreateMongodService
      (h ++ preamble env c sentinel ++
        [Event.StartMongodWithDisableLogicalSessionCacheRefresh
            c.restoreService.minimalConfigPath])
      c.restoreService.Context "wal-g restore" (env.GetURI p) (10 * time.Minute)
    with e | svc
  · rw [fixSystemData_create_error hs hc]
    exact ⟨[Event.Close p], by simp, fun svc hsvc => by cases hsvc⟩
  rcases hf : env.FixSystemDataAfterRestore
      (h ++ preamble env c sentinel ++
        [Event.StartMongodWithDisableLogicalSessionCacheRefresh
            c.restoreService.minimalConfigPath,
         Event.CreateMongodService c.restoreService.Context "wal-g restore" (env.GetURI p)
            (10 * time.Minute)])
      svc c.rsConf c.shConf c.cfgConf with _ | e
  swap
  · rw [fixSystemData_repair_error hs hc hf]
    refine ⟨_, by simp; rfl, fun svc2 hsvc => ?_⟩
    cases hsvc
    exact ⟨_, rfl, by simp [Event.isFixSystemDataAfterRestore]⟩
  rcases hd : env.Shutdown
      (h ++ preamble env c sentinel ++
        [Event.StartMongodWithDisableLogicalSessionCacheRefresh
            c.restoreService.minimalConfigPath,
         Event.CreateMongodService c.restoreService.Context "wal-g restore" (env.GetURI p)
            (10 * time.Minute),
         Event.FixSystemDataAfterRestore svc c.rsConf c.shConf c.cfgConf])
      svc with _ | e
  swap
  · rw [fixSystemData_shutdown_error hs hc hf hd]
    refine ⟨_, by simp; rfl, fun svc2 hsvc => ?_⟩
    cases hsvc
    exact ⟨_, rfl, by simp [Event.isFixSystemDataAfterRestore]⟩
  rw [fixSystemData_wait hs hc hf hd]
  rcases hw : env.Wait
      (h ++ preamble env c sentinel ++
        [Event.StartMongodWithDisableLogicalSessionCacheRefresh
            c.restoreService.minimalConfigPath,
         Event.CreateMongodService c.restoreService.Context "wal-g restore" (env.GetURI p)
            (10 * time.Minute),
         Event.FixSystemDataAfterRestore svc c.rsConf c.shConf c.cfgConf,
         Event.Shutdown svc])
      p with _ | e
  swap
  · refine ⟨_, by simp; rfl, fun svc2 hsvc => ?_⟩
    cases hsvc
    exact ⟨_, rfl, by simp [Event.isFixSystemDataAfterRestore]⟩
  obtain ⟨new, hnew, hno⟩ := recover_no_repair env c.restoreService sentinel
    (h ++ preamble env c sentinel ++
      [Event.StartMongodWithDisableLogicalSessionCacheRefresh
            c.restoreService.minimalConfigPath,
       Event.CreateMongodService c.restoreService.Context "wal-g restore" (env.GetURI p)
            (10 * time.Minute),
       Event.FixSystemDataAfterRestore svc c.rsConf c.shConf c.cfgConf,
       Event.Shutdown svc,
       Event.Wait p,
       Event.Close p])
  simp only [hnew]
  refine ⟨Event.FixSystemDataAfterRestore svc c.rsConf c.shConf c.cfgConf ::
    Event.Shutdown svc :: Event.Wait p :: Event.Close p ::
    Event.StartMongodWithRecoverFromOplogAsStandalone c.restoreService.minimalConfigPath ::
    new, by simp, fun svc2 hsvc => ?_⟩
  cases hsvc
  refine ⟨_, rfl, ?_⟩
  intro ev hev
  simp only [List.mem_cons] at hev
  rcases hev with rfl | rfl | rfl | rfl | hev
  · rfl
  · rfl
  · rfl
  · rfl
  · exact hno ev hev

/-- Witness of C9: the scripted environment with the flag unset and no
failing call. -/
theorem fixSystemData_service_and_repair_arguments_witness :
    PreambleSucceeds (scriptedEnv false demoSentinel acceptAll noFailure) demoCall false
      demoSentinel [] ∧
    10 * time.Minute = (600000000000 : Int) ∧
    ∃ rest,
      (DoRestore (scriptedEnv false demoSentinel acceptAll noFailure) demoService
        "stream_20240101T000000Z" "4.2" "rs0" "sh0" "cfg0" []).2 =
        [] ++ preamble (scriptedEnv false demoSentinel acceptAll noFailure) demoCall
            demoSentinel ++
          [Event.StartMongodWithDisableLogicalSessionCacheRefresh "/etc/mongod-minimal.conf",
           Event.CreateMongodService () "wal-g restore" "mongodb://localhost:27018"
            (10 * time.Minute)] ++ rest ∧
      ∀ svc, (scriptedEnv false demoSentinel acceptAll noFailure).CreateMongodService
          ([] ++ preamble (scriptedEnv false demoSentinel acceptAll noFailure) demoCall
              demoSentinel ++
            [Event.StartMongodWithDisableLogicalSessionCacheRefresh
              "/etc/mongod-minimal.conf"])
          () "wal-g restore" "mongodb://localhost:27018" (10 * time.Minute) = .ok svc →
        ∃ rest', rest = Event.FixSystemDataAfterRestore svc "rs0" "sh0" "cfg0" :: rest' ∧
          ∀ ev ∈ rest', ev.isFixSystemDataAfterRestore = false :=
  have hp : PreambleSucceeds (scriptedEnv false demoSentinel acceptAll noFailure) demoCall
      false demoSentinel [] := by
    intro s hs
    cases s <;> first | exact absurd hs (by decide) | rfl
  ⟨hp, fixSystemData_service_and_repair_arguments
    (scriptedEnv false demoSentinel acceptAll noFailure) demoCall demoSentinel []
    (6 : Nat) hp rfl⟩

/-- C10: the recover-oplog phase is run on the sentinel downloaded at the
start of `DoRestore`.  Its first call starts mongod in the
recover-from-oplog-as-standalone mode and no later call of the phase is
`FixSystemDataAfterRestore`.  Once the process is started, the mongod service
is created against the URI of that process with operation timeout
`ComputeMongoStartTimeout(sentinel.UncompressedSize)`.  Once the service is
created, the only call made through it is `Shutdown`; if `Shutdown` fails the
phase closes the process and returns that error, and if it succeeds `Wait` is
called on the process, the process is closed, and the result of `Wait` is the
result of the phase. -/
theorem recover_phase_calls (env : Env T) (c : Call T) (sentinel : models.Backup)
    (h : Trace T) (hp : PreambleSucceeds env c false sentinel h)
    (hfix : StepSucceeds env c false sentinel h Step.fixSystemData) :
    DoRestore env c.restoreService c.backupName c.restVersion c.rsConf c.shConf c.cfgConf h =
      recoverFromOplogAsStandalone env c.restoreService sentinel
        (fixSystemData env c.restoreService c.rsConf c.shConf c.cfgConf
          (h ++ preamble env c sentinel)).2 ∧
    ∀ t : Trace T,
      (∃ new, (recoverFromOplogAsStandalone env c.restoreService sentinel t).2 =
          t ++ Event.StartMongodWithRecoverFromOplogAsStandalone
            c.restoreService.minimalConfigPath :: new ∧
        ∀ ev ∈ new, ev.isFixSystemDataAfterRestore = false) ∧
      ∀ p,
        env.StartMongodWithRecoverFromOplogAsStandalone t c.restoreService.minimalConfigPath = .ok p →
        (∃ rest, (recoverFromOplogAsStandalone env c.restoreService sentinel t).2 =
          t ++ [Event.StartMongodWithRecoverFromOplogAsStandalone
            c.restoreService.minimalConfigPath,
            Event.CreateMongodService c.restoreService.Context "wal-g restore" (env.GetURI p)
            (env.ComputeMongoStartTimeout sentinel.UncompressedSize)] ++ rest) ∧
        ∀ svc, env.CreateMongodService
            (t ++ [Event.StartMongodWithRecoverFromOplogAsStandalone
            c.restoreService.minimalConfigPath])
            c.restoreService.Context "wal-g restore" (env.GetURI p)
            (env.ComputeMongoStartTimeout sentinel.UncompressedSize) = .ok svc →
          (∀ e, env.Shutdown
              (t ++ [Event.StartMongodWithRecoverFromOplogAsStandalone
            c.restoreService.minimalConfigPath,
                Event.CreateMongodService c.restoreService.Context "wal-g restore" (env.GetURI p)
            (env.ComputeMongoStartTimeout sentinel.UncompressedSize)])
              svc = some e →
            recoverFromOplogAsStandalone env c.restoreService sentinel t =
              (some e,
               t ++ [Event.StartMongodWithRecoverFromOplogAsStandalone
            c.restoreService.minimalConfigPath,
                Event.CreateMongodService c.restoreService.Context "wal-g restore" (env.GetURI p)
            (env.ComputeMongoStartTimeout sentinel.UncompressedSize),
                Event.Shutdown svc,
                Event.Close p])) ∧
          (env.Shutdown
              (t ++ [Event.StartMongodWithRecoverFromOplogAsStandalone
            c.restoreService.minimalConfigPath,
                Event.CreateMongodService c.restoreService.Context "wal-g restore" (env.GetURI p)
            (env.ComputeMongoStartTimeout sentinel.UncompressedSize)])
              svc = none →
            recoverFromOplogAsStandalone env c.restoreService sentinel t =
              (env.Wait
                (t ++ [Event.StartMongodWithRecoverFromOplogAsStandalone
            c.restoreService.minimalConfigPath,
                  Event.CreateMongodService c.restoreService.Context "wal-g restore" (env.GetURI p)
            (env.ComputeMongoStartTimeout sentinel.UncompressedSize),
                  Event.Shutdown svc]) p,
               t ++ [Event.StartMongodWithRecoverFromOplogAsStandalone
            c.restoreService.minimalConfigPath,
                Event.CreateMongodService c.restoreService.Context "wal-g restore" (env.GetURI p)
            (env.ComputeMongoStartTimeout sentinel.UncompressedSize),
                Event.Shutdown svc,
                Event.Wait p,
                Event.Close p])) := by
  refine ⟨?_, ?_⟩
  · simp only [StepSucceeds] at hfix
    rw [DoRestore_after_preamble hp]
    simp [hfix]
  · intro t
    refine ⟨recover_no_repair env c.restoreService sentinel t, ?_⟩
    intro p hs
    refine ⟨?_, ?_⟩
    · rcases hc : env.CreateMongodService
            (t ++ [Event.StartMongodWithRecoverFromOplogAsStandalone
            c.restoreService.minimalConfigPath])
            c.restoreService.Context "wal-g restore" (env.GetURI p)
            (env.ComputeMongoStartTimeout sentinel.UncompressedSize) with e | svc
      · rw [recover_create_error hs hc]
        exact ⟨[Event.Close p], by simp⟩
      rcases hd : env.Shutdown
              (t ++ [Event.StartMongodWithRecoverFromOplogAsStandalone
            c.restoreService.minimalConfigPath,
                Event.CreateMongodService c.restoreService.Context "wal-g restore" (env.GetURI p)
            (env.ComputeMongoStartTimeout sentinel.UncompressedSize)])
              svc with _ | e
      · rw [recover_wait hs hc hd]
        exact ⟨[Event.Shutdown svc, Event.Wait p, Event.Close p], by simp⟩
      · rw [recover_shutdown_error hs hc hd]
        exact ⟨[Event.Shutdown svc, Event.Close p], by simp⟩
    · intro svc hc
      exact ⟨fun e hd => recover_shutdown_error hs hc hd,
        fun hd => recover_wait hs hc hd⟩

/-- Witness of C10: the scripted environment with the flag unset and no
failing call. -/
theorem recover_phase_calls_witness :
    PreambleSucceeds (scriptedEnv false demoSentinel acceptAll noFailure) demoCall false
      demoSentinel [] ∧
    StepSucceeds (scriptedEnv false demoSentinel acceptAll noFailure) demoCall false
      demoSentinel [] Step.fixSystemData ∧
    DoRestore (scriptedEnv false demoSentinel acceptAll noFailure) demoService
        "stream_20240101T000000Z" "4.2" "rs0" "sh0" "cfg0" [] =
      recoverFromOplogAsStandalone (scriptedEnv false demoSentinel acceptAll noFailure)
        demoService demoSentinel
        (fixSystemData (scriptedEnv false demoSentinel acceptAll noFailure) demoService
          "rs0" "sh0" "cfg0"
          ([] ++ preamble (scriptedEnv false demoSentinel acceptAll noFailure) demoCall
            demoSentinel)).2 :=
  have hp : PreambleSucceeds (scriptedEnv false demoSentinel acceptAll noFailure) demoCall
      false demoSentinel [] := by
    intro s hs
    cases s <;> first | exact absurd hs (by decide) | rfl
  ⟨hp, rfl, (recover_phase_calls (scriptedEnv false demoSentinel acceptAll noFailure)
    demoCall demoSentinel [] hp rfl).1⟩

end WalG
